import Mathlib

/-!
Verification development for the msv permit-clearance application
(`msv/hcsd/models.py` and `msv/hcsd/views.py`).

The Python views are embedded shallowly: each Django view's POST branch
becomes a pure Lean function from an acting user, a request payload and a
database snapshot to a result value plus the updated snapshot.  Uploaded
files are represented by their file names, dates by abstract day numbers,
and the database by association lists keyed on primary keys.  A Python
`NameError` / `UnboundLocalError` (raised by the dead duplicated handler
branches in `clearance_list`) is modelled by a dedicated result
constructor carrying the unbound identifier.
-/

set_option maxRecDepth 8000

namespace Msv

/-! ### Module-level constants (views.py lines 33-38) -/

def ALLOWED_DOC_EXTENSIONS : List String := [".pdf", ".png", ".jpg", ".jpeg"]

def ROLE_DATA_ENTRY : String := "Data Entry"

def ROLE_INSPECTOR : String := "Inspector"

def ROLE_ADMIN : String := "Administration"

/-! ### Small helpers -/

/-- Lower-casing of a file name, as Python `str.lower` on ASCII names. -/
def lowerStr (s : String) : String := String.mk (s.toList.map Char.toLower)

/-- The extension part of `os.path.splitext` for a bare file name (no path
separators): the suffix starting at the last dot, unless every character
before that dot is itself a dot (hidden-file rule). -/
def splitextExt (name : String) : String :=
  let cs := name.toList
  let revAfter := cs.reverse.takeWhile (fun c => c ≠ '.')
  if revAfter.length == cs.length then ""
  else
    let before := cs.take (cs.length - revAfter.length - 1)
    if before.all (fun c => c == '.') then ""
    else String.mk ('.' :: revAfter.reverse)

/-- `os.path.splitext(doc.name)[1].lower() in ALLOWED_DOC_EXTENSIONS`. -/
def validDocExt (name : String) : Bool :=
  ALLOWED_DOC_EXTENSIONS.contains (lowerStr (splitextExt name))

/-- Python truthiness of an optional CharField / FileField value:
`None` and the empty string are falsy. -/
def truthyOptStr : Option String → Bool
  | none => false
  | some s => s != ""

/-- Python truthiness of `_parse_int` results: `None` and `0` are falsy. -/
def truthyId : Option Nat → Bool
  | none => false
  | some n => n != 0

def joinComma (l : List String) : String := String.intercalate ", " l

/-- A date value arriving in a POST payload, as consumed by
`datetime.date.fromisoformat`: absent (or empty), present but unparsable,
or a valid date (abstracted to a day number). -/
inductive DateInput where
  | absent
  | invalid
  | valid (d : Nat)
deriving Repr, DecidableEq

/-! ### Users and the authorization gate (views.py lines 103-120) -/

structure User where
  id : Nat
  isAuthenticated : Bool
  isSuperuser : Bool
  groups : List String
deriving Repr, DecidableEq

def userInGroups (u : User) (groupNames : List String) : Bool :=
  if !u.isAuthenticated then false
  else if u.isSuperuser then true
  else u.groups.any (fun g => groupNames.contains g)

def canDataEntry (u : User) : Bool := userInGroups u [ROLE_DATA_ENTRY, ROLE_ADMIN]

def canInspector (u : User) : Bool := userInGroups u [ROLE_INSPECTOR, ROLE_ADMIN]

def canAdmin (u : User) : Bool := userInGroups u [ROLE_ADMIN]

/-! ### Data model (models.py) -/

structure Enginer where
  name : String
  email : String
  phone : String
  publicHealthCert : Option String := none
  termiteCert : Option String := none
deriving Repr, DecidableEq

structure Company where
  name : String
  number : String
  address : String := ""
  tradeLicenseExp : Option Nat := none
  businessActivity : Option String := none
  landline : Option String := none
  ownerPhone : Option String := none
  email : Option String := none
  pestControlType : Option String := none
  enginerId : Option Nat := none
deriving Repr, DecidableEq

structure Permit where
  companyId : Nat
  status : String := "order_received"
  permitType : String := "pest_control"
  permitNo : Option String := none
  dateOfCreationYear : Option Nat := none
  dateOfExpiry : Option Nat := none
  issueDate : Option Nat := none
  allowedActivities : Option String := none
  restrictedActivities : Option String := none
  allowedOther : Option String := none
  restrictedOther : Option String := none
  companyRep : Option String := none
  departmentStamp : Option String := none
  paymentDate : Option Nat := none
  paymentLink : Option String := none
  paymentNumber : Option String := none
  paymentEmail : Option String := none
  paymentReceipt : Option String := none
  inspectionPaymentLink : Option String := none
  inspectionPaymentReference : Option String := none
  inspectionPaymentEmail : Option String := none
  inspectionPaymentReceipt : Option String := none
  requestEmail : Option String := none
  requestDocumentsBundle : List String := []
  approvedRemarks : Option String := none
  unapprovedReason : Option String := none
  approvedBy : Option Nat := none
  unapprovedBy : Option Nat := none
deriving Repr, DecidableEq

structure Review where
  inspectorId : Option Nat := none
  isApproved : Bool := false
  comments : String := ""
deriving Repr, DecidableEq

structure LogEntry where
  pirmetId : Nat
  changeType : String
  oldStatus : Option String := none
  newStatus : Option String := none
  notes : String := ""
  changedBy : Option Nat := none
deriving Repr, DecidableEq

structure CompanyLog where
  companyId : Nat
  action : String
  notes : String := ""
  changedBy : Option Nat := none
  attachment : Option String := none
deriving Repr, DecidableEq

/-- Database snapshot: association lists keyed by primary key, plus the
next fresh primary key for the tables the handlers insert into.
`reviews` is keyed by permit id (`InspectorReview.pirmet` is one-to-one). -/
structure Store where
  permits : List (Nat × Permit) := []
  nextPermitId : Nat := 1
  companies : List (Nat × Company) := []
  nextCompanyId : Nat := 1
  engineers : List (Nat × Enginer) := []
  reviews : List (Nat × Review) := []
  logs : List LogEntry := []
  pirmetDocuments : List (Nat × String) := []
  companyLogs : List CompanyLog := []
deriving Repr, DecidableEq

def findById {α : Type} (rows : List (Nat × α)) (i : Nat) : Option α :=
  (rows.find? (fun e => e.1 == i)).map (fun e => e.2)

def setById {α : Type} (rows : List (Nat × α)) (i : Nat) (v : α) : List (Nat × α) :=
  rows.map (fun e => if e.1 == i then (i, v) else e)

/-- `InspectorReview.objects.update_or_create(pirmet=pirmet, defaults=...)`:
replace the row keyed by the permit if present, insert otherwise. -/
def upsertReview (reviews : List (Nat × Review)) (pid : Nat) (r : Review) :
    List (Nat × Review) :=
  if reviews.any (fun e => e.1 == pid) then
    reviews.map (fun e => if e.1 == pid then (pid, r) else e)
  else reviews ++ [(pid, r)]

def reviewCount (reviews : List (Nat × Review)) (pid : Nat) : Nat :=
  (reviews.filter (fun e => e.1 == pid)).length

/-- `_log_pirmet_change` (views.py lines 188-203): `changed_by` is the
acting user when authenticated, null otherwise. -/
def logPirmet (db : Store) (pid : Nat) (changeType : String) (u : User)
    (oldStatus newStatus : Option String) (notes : String) : Store :=
  { db with logs := db.logs ++
      [{ pirmetId := pid, changeType := changeType, oldStatus := oldStatus,
         newStatus := newStatus, notes := notes,
         changedBy := if u.isAuthenticated then some u.id else none }] }

/-- `_log_company_change` (views.py lines 214-221). -/
def logCompany (db : Store) (cid : Nat) (action : String) (u : User)
    (notes : String) (attachment : Option String) : Store :=
  { db with companyLogs := db.companyLogs ++
      [{ companyId := cid, action := action, notes := notes,
         changedBy := if u.isAuthenticated then some u.id else none,
         attachment := attachment }] }

/-! ### Permit-number assignment (models.py lines 138-147)

`PirmetClearance.save` is modelled on the three fields it reads and
writes: the primary key (`None` before the first save), the permit
number, and the creation date (only its year is used).  The first
`super().save()` of a new row assigns the primary key and, via
`auto_now_add`, the creation date. -/

structure PermitRow where
  pk : Option Nat := none
  permitNo : Option String := none
  dateOfCreationYear : Option Nat := none
deriving Repr, DecidableEq

/-- Python `f"{pk:06d}"`: the decimal representation left-padded with
zeros to a minimum width of `w`. -/
def padZeros (w : Nat) (n : Nat) : String :=
  let s := Nat.repr n
  String.mk (List.replicate (w - s.length) '0') ++ s

/-- `PirmetClearance._generate_permit_no`. -/
def generatePermitNo (creationYear : Option Nat) (todayYear pk : Nat) : String :=
  "PRM-" ++ Nat.repr (creationYear.getD todayYear) ++ "-" ++ padZeros 6 pk

/-- `PirmetClearance.save`: the first save of a new row assigns the key
and the creation year, then fills `permit_no` exactly when it is still
empty; saving an existing row changes none of these fields. -/
def permitRowSave (freshPk todayYear : Nat) (p : PermitRow) : PermitRow :=
  let isNew := p.pk.isNone
  let p1 := if isNew then
      { p with pk := some freshPk, dateOfCreationYear := some todayYear }
    else p
  if isNew && !truthyOptStr p1.permitNo then
    let no := generatePermitNo p1.dateOfCreationYear todayYear (p1.pk.getD 0)
    { p1 with permitNo := some no }
  else p1

/-! ### clearance_list (views.py lines 958-1639)

The POST branch of `clearance_list`.  The seven handler blocks at lines
964-1179 are dead copies of permit-detail handlers: they reference
`review_errors`, which is bound nowhere in the function (a `NameError`),
and `pirmet`, which is only assigned further down (an
`UnboundLocalError`), so every request reaching them raises.  The raise
is modelled by the `nameFault` result carrying the unbound identifier. -/

structure Clock where
  today : Nat
  todayYear : Nat
deriving Repr, DecidableEq

structure ListPayload where
  action : String := ""
  pirmetId : Option Nat := none
  companyId : Option Nat := none
  inspectorId : Option Nat := none
  remarks : String := ""
  dateOfExpiry : DateInput := .absent
  documents : List String := []
  paymentLink : String := ""
  paymentEmail : String := ""
  paymentNumber : String := ""
  paymentReceipt : Option String := none
  inspectionPaymentLink : String := ""
  inspectionPaymentReference : String := ""
  inspectionPaymentEmail : String := ""
  inspectionPaymentReceipt : Option String := none
deriving Repr, DecidableEq

inductive ListResult where
  | redirectLogin
  | redirectList
  | redirectDetail (id : Nat)
  | renderList (errors : List String)
  | nameFault (unboundName : String)
deriving Repr, DecidableEq

/-- The success tail of the clearance-list `create` handler (views.py
lines 1227-1250): insert the permit with status `review_pending`, attach
the documents, and write the `created` and `document_upload` audit
entries. -/
def clearanceCreateApply (clk : Clock) (u : User) (pl : ListPayload) (db : Store)
    (dateOfExpiry : Option Nat) : ListResult × Store :=
  let pid := db.nextPermitId
  let permit : Permit :=
    { companyId := pl.companyId.getD 0, status := "review_pending",
      permitType := "pest_control", dateOfExpiry := dateOfExpiry,
      dateOfCreationYear := some clk.todayYear,
      permitNo := some (generatePermitNo (some clk.todayYear) clk.todayYear pid) }
  let db := { db with permits := db.permits ++ [(pid, permit)],
                      nextPermitId := pid + 1 }
  let db := { db with pirmetDocuments :=
                db.pirmetDocuments ++ pl.documents.map (fun d => (pid, d)) }
  let db := logPirmet db pid "created" u none (some "review_pending")
              "Created from clearance list."
  let db := logPirmet db pid "document_upload" u none none
              ("Documents uploaded: " ++ Nat.repr pl.documents.length)
  (.redirectList, db)

/-- `action == 'create'` (views.py lines 1181-1250). -/
def clearanceCreate (clk : Clock) (u : User) (pl : ListPayload) (db : Store) :
    ListResult × Store :=
  if !canDataEntry u then
    (.renderList ["You do not have permission to create permits."], db)
  else
    let company : Option Company :=
      if truthyId pl.companyId then findById db.companies (pl.companyId.getD 0)
      else none
    let errors : List String :=
      if !truthyId pl.companyId then ["Please select a valid company."]
      else if company.isNone then ["Please select a valid company."]
      else []
    let (dateOfExpiry, errors) : Option Nat × List String :=
      match pl.dateOfExpiry with
      | .absent => (none, errors ++ ["Expiry date is required."])
      | .invalid => (none, errors ++ ["Expiry date is invalid."])
      | .valid d => (some d, errors)
    let errors := errors ++
      (if pl.documents.isEmpty then
        ["At least one PDF or image document is required."]
      else
        let invalidDocs := pl.documents.filter (fun d => !validDocExt d)
        if invalidDocs.isEmpty then []
        else ["Only PDF, JPG, or PNG files are allowed: " ++ joinComma invalidDocs])
    if !errors.isEmpty then (.renderList errors, db)
    else clearanceCreateApply clk u pl db dateOfExpiry

/-- The success tail of the clearance-list `approve` handler (views.py
lines 1285-1308): upsert the InspectorReview row, set status `approved`
and the approver, and write a `status_change` audit entry. -/
def clearanceApproveApply (u : User) (pl : ListPayload) (db : Store)
    (pid : Nat) (p : Permit) : ListResult × Store :=
  let rev : Review := { inspectorId := pl.inspectorId, isApproved := true, comments := pl.remarks }
  let db := { db with reviews := upsertReview db.reviews pid rev }
  let p1 := { p with status := "approved" }
  let p1 := { p1 with approvedRemarks := some pl.remarks }
  let p1 := { p1 with approvedBy := if u.isAuthenticated then some u.id else p.approvedBy }
  let db := { db with permits := setById db.permits pid p1 }
  let db := logPirmet db pid "status_change" u (some p.status) (some "approved")
              (if pl.remarks != "" then pl.remarks else "Approved by inspector.")
  (.redirectList, db)

/-- `action == 'approve'` (views.py lines 1252-1308). -/
def clearanceApprove (u : User) (pl : ListPayload) (db : Store) :
    ListResult × Store :=
  if !canInspector u then
    (.renderList ["You do not have permission to review permits."], db)
  else
    let pirmet : Option Permit :=
      if truthyId pl.pirmetId then findById db.permits (pl.pirmetId.getD 0)
      else none
    let errors : List String :=
      if !truthyId pl.pirmetId then ["Selected permit was not found."]
      else match pirmet with
        | none => ["Selected permit was not found."]
        | some p =>
          if p.status != "review_pending" then
            ["This permit is not waiting for review."]
          else []
    let inspector : Option Enginer :=
      if truthyId pl.inspectorId then findById db.engineers (pl.inspectorId.getD 0)
      else none
    let errors := errors ++
      (if !truthyId pl.inspectorId then ["Please select a valid inspector."]
       else if inspector.isNone then ["Please select a valid inspector."]
       else [])
    if !errors.isEmpty then (.renderList errors, db)
    else
      match pl.pirmetId, pirmet with
      | some pid, some p => clearanceApproveApply u pl db pid p
      | _, _ => (.redirectList, db)

/-- The success tail of the clearance-list `needs_completion` / `reject`
handler (views.py lines 1346-1369). -/
def clearanceNeedsCompletionApply (u : User) (pl : ListPayload) (db : Store)
    (pid : Nat) (p : Permit) : ListResult × Store :=
  let rev : Review := { inspectorId := pl.inspectorId, isApproved := false, comments := pl.remarks }
  let db := { db with reviews := upsertReview db.reviews pid rev }
  let p1 := { p with status := "needs_completion" }
  let p1 := { p1 with unapprovedReason := some pl.remarks }
  let p1 := { p1 with unapprovedBy := if u.isAuthenticated then some u.id else p.unapprovedBy }
  let db := { db with permits := setById db.permits pid p1 }
  let db := logPirmet db pid "status_change" u (some p.status)
              (some "needs_completion")
              (if pl.remarks != "" then pl.remarks
               else "Returned for completion by inspector.")
  (.redirectList, db)

/-- `action in {'needs_completion', 'reject'}` (views.py lines 1310-1369). -/
def clearanceNeedsCompletion (u : User) (pl : ListPayload) (db : Store) :
    ListResult × Store :=
  if !canInspector u then
    (.renderList ["You do not have permission to review permits."], db)
  else
    let pirmet : Option Permit :=
      if truthyId pl.pirmetId then findById db.permits (pl.pirmetId.getD 0)
      else none
    let errors : List String :=
      if !truthyId pl.pirmetId then ["Selected permit was not found."]
      else match pirmet with
        | none => ["Selected permit was not found."]
        | some p =>
          if p.status != "review_pending" then
            ["This permit is not waiting for review."]
          else []
    let inspector : Option Enginer :=
      if truthyId pl.inspectorId then findById db.engineers (pl.inspectorId.getD 0)
      else none
    let errors := errors ++
      (if !truthyId pl.inspectorId then ["Please select a valid inspector."]
       else if inspector.isNone then ["Please select a valid inspector."]
       else [])
    let errors := errors ++
      (if pl.remarks == "" then ["Completion notes are required."] else [])
    if !errors.isEmpty then (.renderList errors, db)
    else
      match pl.pirmetId, pirmet with
      | some pid, some p => clearanceNeedsCompletionApply u pl db pid p
      | _, _ => (.redirectList, db)

/-- Second copy of `action == 'send_payment_link'` (views.py lines
1371-1421); shadowed by the dead branch at lines 1060-1094 and therefore
unreachable. -/
def clearanceSendPaymentLink (u : User) (pl : ListPayload) (db : Store) :
    ListResult × Store :=
  if !canAdmin u then
    (.renderList ["You do not have permission to send payment links."], db)
  else
    let pirmet : Option Permit :=
      if truthyId pl.pirmetId then findById db.permits (pl.pirmetId.getD 0)
      else none
    let errors : List String :=
      if !truthyId pl.pirmetId then ["Selected permit was not found."]
      else match pirmet with
        | none => ["Selected permit was not found."]
        | some p =>
          if p.status != "approved" then
            ["This permit is not waiting for payment link."]
          else []
    let errors := errors ++
      (if pl.paymentLink == "" then ["Payment link is required."] else [])
    let errors := errors ++
      (if pl.paymentEmail == "" then ["Payment email is required."] else [])
    let errors := errors ++
      (if pl.paymentNumber == "" then ["Payment reference is required."] else [])
    if !errors.isEmpty then (.renderList errors, db)
    else
      match pl.pirmetId, pirmet with
      | some pid, some p =>
        let p1 := { p with paymentLink := some pl.paymentLink }
        let p1 := { p1 with paymentEmail := some pl.paymentEmail }
        let p1 := { p1 with paymentNumber := some pl.paymentNumber }
        let p1 := { p1 with status := "payment_pending" }
        let db := { db with permits := setById db.permits pid p1 }
        let db := logPirmet db pid "status_change" u (some p.status)
                    (some "payment_pending")
                    ("Payment link sent to " ++ pl.paymentEmail ++ ": " ++ pl.paymentLink)
        (.redirectList, db)
      | _, _ => (.redirectList, db)

/-- Second copy of `action == 'send_inspection_payment_link'` (views.py
lines 1423-1473); shadowed by the dead branch at lines 986-1022 and
therefore unreachable. -/
def clearanceSendInspectionPaymentLink (u : User) (pl : ListPayload) (db : Store) :
    ListResult × Store :=
  if !canAdmin u then
    (.renderList ["You do not have permission to send inspection payment links."], db)
  else
    let pirmet : Option Permit :=
      if truthyId pl.pirmetId then findById db.permits (pl.pirmetId.getD 0)
      else none
    let errors : List String :=
      if !truthyId pl.pirmetId then ["Selected permit was not found."]
      else match pirmet with
        | none => ["Selected permit was not found."]
        | some p =>
          if p.status != "order_received" then
            ["This permit is not waiting for inspection payment link."]
          else []
    let errors := errors ++
      (if pl.inspectionPaymentLink == "" then
        ["Inspection payment link is required."] else [])
    let errors := errors ++
      (if pl.inspectionPaymentEmail == "" then
        ["Inspection payment email is required."] else [])
    let errors := errors ++
      (if pl.inspectionPaymentReference == "" then
        ["Inspection payment reference is required."] else [])
    if !errors.isEmpty then (.renderList errors, db)
    else
      match pl.pirmetId, pirmet with
      | some pid, some p =>
        let p1 := { p with inspectionPaymentLink := some pl.inspectionPaymentLink }
        let p1 := { p1 with inspectionPaymentReference := some pl.inspectionPaymentReference }
        let p1 := { p1 with inspectionPaymentEmail := some pl.inspectionPaymentEmail }
        let p1 := { p1 with status := "inspection_payment_pending" }
        let db := { db with permits := setById db.permits pid p1 }
        let db := logPirmet db pid "status_change" u (some p.status)
                    (some "inspection_payment_pending")
                    ("Inspection payment link sent to " ++ pl.inspectionPaymentEmail ++
                     ": " ++ pl.inspectionPaymentLink)
        (.redirectList, db)
      | _, _ => (.redirectList, db)

/-- Second copy of `action == 'inspection_payment'` (views.py lines
1475-1524); shadowed by the dead branch at lines 1024-1058 and therefore
unreachable.  Note its target status is `review_pending`. -/
def clearanceInspectionPayment (u : User) (pl : ListPayload) (db : Store) :
    ListResult × Store :=
  if !canAdmin u then
    (.renderList ["You do not have permission to record inspection payments."], db)
  else
    let pirmet : Option Permit :=
      if truthyId pl.pirmetId then findById db.permits (pl.pirmetId.getD 0)
      else none
    let errors : List String :=
      if !truthyId pl.pirmetId then ["Selected permit was not found."]
      else match pirmet with
        | none => ["Selected permit was not found."]
        | some p =>
          if p.status != "inspection_payment_pending" then
            ["This permit is not waiting for inspection payment."]
          else []
    let errors := errors ++
      (if pl.inspectionPaymentReference == "" then
        ["Inspection payment reference is required."] else [])
    let errors := errors ++
      (match pl.inspectionPaymentReceipt with
       | none => ["Inspection payment receipt is required."]
       | some f =>
         if !validDocExt f then
           ["Inspection payment receipt must be PDF or image."]
         else [])
    if !errors.isEmpty then (.renderList errors, db)
    else
      match pl.pirmetId, pirmet with
      | some pid, some p =>
        let p1 := { p with inspectionPaymentReference := some pl.inspectionPaymentReference }
        let receipt := match pl.inspectionPaymentReceipt with
          | some f => some f
          | none => p.inspectionPaymentReceipt
        let p1 := { p1 with inspectionPaymentReceipt := receipt }
        let p1 := { p1 with status := "review_pending" }
        let db := { db with permits := setById db.permits pid p1 }
        let db := logPirmet db pid "payment_update" u (some p.status)
                    (some "review_pending")
                    ("Inspection payment recorded: " ++ pl.inspectionPaymentReference)
        (.redirectList, db)
      | _, _ => (.redirectList, db)

/-- Second copy of `action == 'payment'` (views.py lines 1526-1576);
shadowed by the dead branch at lines 1096-1126 and therefore
unreachable. -/
def clearancePayment (clk : Clock) (u : User) (pl : ListPayload) (db : Store) :
    ListResult × Store :=
  if !canAdmin u then
    (.renderList ["You do not have permission to record payments."], db)
  else
    let pirmet : Option Permit :=
      if truthyId pl.pirmetId then findById db.permits (pl.pirmetId.getD 0)
      else none
    let errors : List String :=
      if !truthyId pl.pirmetId then ["Selected permit was not found."]
      else match pirmet with
        | none => ["Selected permit was not found."]
        | some p =>
          if p.status != "payment_pending" then
            ["This permit is not waiting for payment."]
          else []
    let errors := errors ++
      (match pl.paymentReceipt with
       | none => ["Payment receipt is required."]
       | some f =>
         if !validDocExt f then ["Payment receipt must be PDF or image."]
         else [])
    if !errors.isEmpty then (.renderList errors, db)
    else
      match pl.pirmetId, pirmet with
      | some pid, some p =>
        let number := if pl.paymentNumber != "" then some pl.paymentNumber else p.paymentNumber
        let p1 := { p with paymentNumber := number }
        let receipt := match pl.paymentReceipt with
          | some f => some f
          | none => p.paymentReceipt
        let p1 := { p1 with paymentReceipt := receipt }
        let p1 := { p1 with paymentDate := if p.paymentDate.isNone then some clk.today else p.paymentDate }
        let p1 := { p1 with status := "payment_completed" }
        let db := { db with permits := setById db.permits pid p1 }
        let db := logPirmet db pid "payment_update" u (some p.status)
                    (some "payment_completed")
                    ("Payment recorded: " ++ pl.paymentNumber)
        (.redirectList, db)
      | _, _ => (.redirectList, db)

/-- Second copy of `action == 'issue'` (views.py lines 1578-1612);
shadowed by the dead branch at lines 1128-1146 and therefore
unreachable. -/
def clearanceIssue (u : User) (pl : ListPayload) (db : Store) :
    ListResult × Store :=
  if !canAdmin u then
    (.renderList ["You do not have permission to issue permits."], db)
  else
    let pirmet : Option Permit :=
      if truthyId pl.pirmetId then findById db.permits (pl.pirmetId.getD 0)
      else none
    let errors : List String :=
      if !truthyId pl.pirmetId then ["Selected permit was not found."]
      else match pirmet with
        | none => ["Selected permit was not found."]
        | some p =>
          if p.status != "payment_completed" then
            ["This permit is not ready to be issued."]
          else []
    if !errors.isEmpty then (.renderList errors, db)
    else
      match pl.pirmetId, pirmet with
      | some pid, some p =>
        let p1 := { p with status := "issued" }
        let db := { db with permits := setById db.permits pid p1 }
        let db := logPirmet db pid "status_change" u (some p.status) (some "issued")
                    "Permit issued."
        (.redirectList, db)
      | _, _ => (.redirectList, db)

/-- `action == 'delete'` (views.py lines 1614-1635); `pirmet.delete()`
cascades to the dependent review, document and change-log rows. -/
def clearanceDelete (u : User) (pl : ListPayload) (db : Store) :
    ListResult × Store :=
  if !canAdmin u then
    (.renderList ["You do not have permission to delete permits."], db)
  else if !truthyId pl.pirmetId then
    (.renderList ["Selected permit was not found."], db)
  else
    let pid := pl.pirmetId.getD 0
    match findById db.permits pid with
    | none => (.renderList ["Selected permit was not found."], db)
    | some _ =>
      let db := { db with
        permits := db.permits.filter (fun e => e.1 != pid),
        reviews := db.reviews.filter (fun e => e.1 != pid),
        pirmetDocuments := db.pirmetDocuments.filter (fun e => e.1 != pid),
        logs := db.logs.filter (fun e => e.pirmetId != pid) }
      (.redirectList, db)

/-- The POST branch of `clearance_list` (views.py lines 958-1639).  The
chain mirrors the source's `if action == ...` blocks in order; the first
seven blocks are the dead copies that evaluate an unbound name on every
path (`review_errors` for non-admins and on every `update_request_email`
request, `pirmet` otherwise) and so raise before any of the later
handlers with the same action names can run. -/
def clearanceListPost (clk : Clock) (u : User) (pl : ListPayload) (db : Store) :
    ListResult × Store :=
  if !u.isAuthenticated then (.redirectLogin, db)
  else if pl.action == "update_request_email" then
    (.nameFault "review_errors", db)
  else if pl.action == "send_inspection_payment_link" then
    (.nameFault (if canAdmin u then "pirmet" else "review_errors"), db)
  else if pl.action == "inspection_payment" then
    (.nameFault (if canAdmin u then "pirmet" else "review_errors"), db)
  else if pl.action == "send_payment_link" then
    (.nameFault (if canAdmin u then "pirmet" else "review_errors"), db)
  else if pl.action == "payment" then
    (.nameFault (if canAdmin u then "pirmet" else "review_errors"), db)
  else if pl.action == "issue" then
    (.nameFault (if canAdmin u then "pirmet" else "review_errors"), db)
  else if pl.action == "update_permit_details" then
    (.nameFault (if canAdmin u then "pirmet" else "review_errors"), db)
  else if pl.action == "create" then clearanceCreate clk u pl db
  else if pl.action == "approve" then clearanceApprove u pl db
  else if pl.action == "needs_completion" || pl.action == "reject" then
    clearanceNeedsCompletion u pl db
  else if pl.action == "send_payment_link" then clearanceSendPaymentLink u pl db
  else if pl.action == "send_inspection_payment_link" then
    clearanceSendInspectionPaymentLink u pl db
  else if pl.action == "inspection_payment" then clearanceInspectionPayment u pl db
  else if pl.action == "payment" then clearancePayment clk u pl db
  else if pl.action == "issue" then clearanceIssue u pl db
  else if pl.action == "delete" then clearanceDelete u pl db
  else (.redirectList, db)

/-! ### pirmet_detail (views.py lines 1641-1838)

The permit is loaded with `get_object_or_404` before anything else;
`review_errors` starts as the empty list; the POST branch handles
`complete_missing` and the review actions, every other action falls
through to the final render. -/

structure DetailPayload where
  action : String := ""
  completionNotes : String := ""
  documents : List String := []
  inspectorId : Option Nat := none
  remarks : String := ""
deriving Repr, DecidableEq

inductive DetailResult where
  | notFound
  | redirectLogin
  | redirectDetail (id : Nat)
  | renderDetail (reviewErrors : List String)
deriving Repr, DecidableEq

/-- The success tail of `complete_missing` (views.py lines 1677-1717):
append the documents (to the bundle for pest-control permits, as
discrete rows otherwise), log the optional notes, set status back to
`review_pending` and write the `status_change` audit entry. -/
def detailCompleteMissingApply (u : User) (pid : Nat) (pirmet : Permit)
    (pl : DetailPayload) (db : Store) : DetailResult × Store :=
  let db :=
    if !pl.documents.isEmpty then
      if pirmet.permitType == "pest_control" then
        let bundled := { pirmet with requestDocumentsBundle := pirmet.requestDocumentsBundle ++ pl.documents }
        let db := { db with permits := setById db.permits pid bundled }
        logPirmet db pid "document_upload" u none none "Additional documents appended to bundle."
      else
        let db := { db with pirmetDocuments := db.pirmetDocuments ++ pl.documents.map (fun d => (pid, d)) }
        logPirmet db pid "document_upload" u none none ("Documents uploaded: " ++ Nat.repr pl.documents.length)
    else db
  let db :=
    if pl.completionNotes != "" then
      logPirmet db pid "details_update" u none none pl.completionNotes
    else db
  let cur := (findById db.permits pid).getD pirmet
  let db := { db with permits := setById db.permits pid { cur with status := "review_pending" } }
  let db := logPirmet db pid "status_change" u (some pirmet.status) (some "review_pending") "Completed missing requirements."
  (.redirectDetail pid, db)

/-- `action == 'complete_missing'` (views.py lines 1653-1717).  For a
pest-control permit the new documents are appended to the request bundle
(`_append_documents_bundle`), otherwise they become discrete
`PirmetDocument` rows. -/
def detailCompleteMissing (u : User) (pid : Nat) (pirmet : Permit)
    (pl : DetailPayload) (db : Store) : DetailResult × Store :=
  let errors : List String :=
    if !canDataEntry u then ["ليس لديك صلاحية لاستكمال النواقص."] else []
  let errors := errors ++
    (if pirmet.status != "needs_completion" then
      ["هذا الطلب ليس بحاجة لاستكمال نواقص."] else [])
  let invalidDocs := pl.documents.filter (fun d => !validDocExt d)
  let errors := errors ++
    (if !invalidDocs.isEmpty then
      ["يُسمح فقط بملفات PDF أو صور (JPG/PNG): " ++ joinComma invalidDocs] else [])
  let errors := errors ++
    (if pl.documents.isEmpty && pl.completionNotes == "" then
      ["يرجى إضافة مستندات أو كتابة توضيح للنواقص المستكملة."] else [])
  if !errors.isEmpty then (.renderDetail errors, db)
  else detailCompleteMissingApply u pid pirmet pl db

/-- The success tail of the permit-detail review actions (views.py lines
1740-1779): upsert the InspectorReview row, then either approve or
return for completion, each with a `status_change` audit entry. -/
def detailReviewApply (u : User) (pid : Nat) (pirmet : Permit)
    (pl : DetailPayload) (db : Store) : DetailResult × Store :=
  let rev : Review := { inspectorId := pl.inspectorId, isApproved := pl.action == "approve", comments := pl.remarks }
  let db := { db with reviews := upsertReview db.reviews pid rev }
  if pl.action == "approve" then
    let p1 := { pirmet with status := "approved" }
    let p1 := { p1 with approvedRemarks := some pl.remarks }
    let p1 := { p1 with approvedBy := if u.isAuthenticated then some u.id else pirmet.approvedBy }
    let db := { db with permits := setById db.permits pid p1 }
    let db := logPirmet db pid "status_change" u (some pirmet.status) (some "approved")
                (if pl.remarks != "" then pl.remarks else "Approved by inspector.")
    (.redirectDetail pid, db)
  else
    let p1 := { pirmet with status := "needs_completion" }
    let p1 := { p1 with unapprovedReason := some pl.remarks }
    let p1 := { p1 with unapprovedBy := if u.isAuthenticated then some u.id else pirmet.unapprovedBy }
    let db := { db with permits := setById db.permits pid p1 }
    let db := logPirmet db pid "status_change" u (some pirmet.status) (some "needs_completion")
                (if pl.remarks != "" then pl.remarks else "Returned for completion by inspector.")
    (.redirectDetail pid, db)

/-- `action in {'approve', 'needs_completion', 'reject'}` (views.py
lines 1719-1779). -/
def detailReview (u : User) (pid : Nat) (pirmet : Permit)
    (pl : DetailPayload) (db : Store) : DetailResult × Store :=
  let errors : List String :=
    if !canInspector u then ["ليس لديك صلاحية لمراجعة التصاريح."] else []
  let errors := errors ++
    (if pirmet.status != "review_pending" then
      ["هذا الطلب ليس بانتظار المراجعة."] else [])
  let inspector : Option Enginer :=
    if truthyId pl.inspectorId then findById db.engineers (pl.inspectorId.getD 0)
    else none
  let errors := errors ++
    (if !truthyId pl.inspectorId then ["يرجى اختيار المفتش."]
     else if inspector.isNone then ["يرجى اختيار مفتش صحيح."]
     else [])
  let errors := errors ++
    (if (pl.action == "needs_completion" || pl.action == "reject") && pl.remarks == "" then
      ["يرجى كتابة النواقص المطلوبة."] else [])
  if !errors.isEmpty then (.renderDetail errors, db)
  else detailReviewApply u pid pirmet pl db

/-- The POST branch of `pirmet_detail` (views.py lines 1641-1779). -/
def pirmetDetailPost (u : User) (pid : Nat) (pl : DetailPayload) (db : Store) :
    DetailResult × Store :=
  match findById db.permits pid with
  | none => (.notFound, db)
  | some pirmet =>
    if !u.isAuthenticated then (.redirectLogin, db)
    else if pl.action == "complete_missing" then
      detailCompleteMissing u pid pirmet pl db
    else if pl.action == "approve" || pl.action == "needs_completion" || pl.action == "reject" then
      detailReview u pid pirmet pl db
    else (.renderDetail [], db)

/-! ### _upsert_company (views.py lines 136-185) -/

def findCompanyByNameNumber (companies : List (Nat × Company)) (name number : String) :
    Option (Nat × Company) :=
  companies.find? (fun e => e.2.name == name && e.2.number == number)

def findEnginerByEmail (engineers : List (Nat × Enginer)) (email : String) :
    Option (Nat × Enginer) :=
  engineers.find? (fun e => e.2.email == email)

/-- `_upsert_company`: look up by (name, number); update mutable fields in
place when found, create a row otherwise.  Returns the updated store and
the id of the resulting company. -/
def upsertCompany (db : Store) (name number address : String)
    (tradeLicenseExp : Option Nat) (businessActivity landline ownerPhone email : String)
    (enginerId : Option Nat) : Store × Nat :=
  match findCompanyByNameNumber db.companies name number with
  | some (cid, c) =>
    let c := if address != "" && c.address != address then { c with address := address } else c
    let c := if tradeLicenseExp.isSome && c.tradeLicenseExp != tradeLicenseExp then
        { c with tradeLicenseExp := tradeLicenseExp } else c
    let c := if businessActivity != "" then { c with businessActivity := some businessActivity } else c
    let c := if landline != "" then { c with landline := some landline } else c
    let c := if ownerPhone != "" then { c with ownerPhone := some ownerPhone } else c
    let c := if email != "" then { c with email := some email } else c
    let c := if enginerId.isSome && c.enginerId != enginerId then { c with enginerId := enginerId } else c
    ({ db with companies := setById db.companies cid c }, cid)
  | none =>
    let cid := db.nextCompanyId
    let c : Company :=
      { name := name, number := number, address := address,
        tradeLicenseExp := tradeLicenseExp,
        businessActivity := if businessActivity != "" then some businessActivity else none,
        landline := if landline != "" then some landline else none,
        ownerPhone := if ownerPhone != "" then some ownerPhone else none,
        email := if email != "" then some email else none,
        enginerId := enginerId }
    ({ db with companies := db.companies ++ [(cid, c)], nextCompanyId := cid + 1 }, cid)

/-! ### basetemplate, the public pest-control intake form
(views.py lines 288-509) -/

structure IntakePayload where
  companyId : Option Nat := none
  companyName : String := ""
  tradeLicenseNo : String := ""
  tradeLicenseExp : DateInput := .absent
  businessActivity : List String := []
  companyAddress : String := ""
  landline : String := ""
  ownerPhone : String := ""
  companyEmail : String := ""
  requestEmail : String := ""
  issueDate : DateInput := .absent
  expiryDate : DateInput := .absent
  engineerName : String := ""
  engineerEmail : String := ""
  engineerPhone : String := ""
  allowedActivities : List String := []
  restrictedActivities : List String := []
  allowedOther : String := ""
  restrictedOther : String := ""
  companyRep : String := ""
  departmentStamp : String := ""
  documents : List String := []
deriving Repr, DecidableEq

inductive IntakeResult where
  | renderForm (errors : List String)
  | renderSuccess
deriving Repr, DecidableEq

/-- The engineer-resolution block of `basetemplate` (views.py lines
385-406): resolve the acting engineer from the posted triple or from the
selected company, refreshing a stale name/phone pair in place, and
require a public-health certificate. -/
def intakeResolveEnginer (pl : IntakePayload) (db : Store)
    (company : Option (Nat × Company)) (errors : List String) :
    Option (Nat × Enginer) × List String × Store :=
  if pl.engineerName != "" || pl.engineerEmail != "" || pl.engineerPhone != "" then
    if pl.engineerName == "" || pl.engineerEmail == "" || pl.engineerPhone == "" then
      (none, errors ++ ["engineer_required"], db)
    else
      match findEnginerByEmail db.engineers pl.engineerEmail with
      | none => (none, errors ++ ["engineer_not_registered"], db)
      | some (eid, e) =>
        let refreshed :=
          if e.name != pl.engineerName || e.phone != pl.engineerPhone then
            let e1 := { e with name := pl.engineerName, phone := pl.engineerPhone }
            (e1, { db with engineers := setById db.engineers eid e1 })
          else (e, db)
        let e := refreshed.1
        let db := refreshed.2
        if !truthyOptStr e.publicHealthCert then
          (some (eid, e), errors ++ ["engineer_cert_required"], db)
        else (some (eid, e), errors, db)
  else
    match company with
    | some (_, c) =>
      match c.enginerId with
      | some eid =>
        match findById db.engineers eid with
        | some e =>
          if !truthyOptStr e.publicHealthCert then
            (some (eid, e), errors ++ ["engineer_cert_required"], db)
          else (some (eid, e), errors, db)
        | none => (none, errors ++ ["engineer_required"], db)
      | none => (none, errors ++ ["engineer_required"], db)
    | none => (none, errors ++ ["engineer_required"], db)

/-- The creation tail of `basetemplate` (views.py lines 442-503): upsert
the company, create the permit in `order_received`, attach the document
bundle, and write the `created` and `document_upload` audit entries. -/
def basetemplateCreate (clk : Clock) (u : User) (pl : IntakePayload) (db : Store)
    (companyName tradeLicenseNo companyAddress : String) (tradeLicenseExp : Option Nat)
    (businessActivity landline ownerPhone companyEmail : String)
    (issueDate dateOfExpiry : Option Nat) (eid : Nat) : IntakeResult × Store :=
  let up := upsertCompany db companyName tradeLicenseNo companyAddress
    tradeLicenseExp businessActivity landline ownerPhone companyEmail (some eid)
  let db := up.1
  let cid := up.2
  let pid := db.nextPermitId
  let permit : Permit :=
    { companyId := cid, status := "order_received", permitType := "pest_control",
      dateOfCreationYear := some clk.todayYear,
      permitNo := some (generatePermitNo (some clk.todayYear) clk.todayYear pid),
      dateOfExpiry := dateOfExpiry, issueDate := issueDate,
      allowedActivities :=
        if pl.allowedActivities.isEmpty then none
        else some (String.intercalate "," pl.allowedActivities),
      restrictedActivities :=
        if pl.restrictedActivities.isEmpty then none
        else some (String.intercalate "," pl.restrictedActivities),
      allowedOther := if pl.allowedOther != "" then some pl.allowedOther else none,
      restrictedOther := if pl.restrictedOther != "" then some pl.restrictedOther else none,
      companyRep := if pl.companyRep != "" then some pl.companyRep else none,
      departmentStamp := if pl.departmentStamp != "" then some pl.departmentStamp else none,
      requestEmail := if pl.requestEmail != "" then some pl.requestEmail else none }
  let permit := { permit with requestDocumentsBundle := pl.documents }
  let db := { db with permits := db.permits ++ [(pid, permit)], nextPermitId := pid + 1 }
  let db := logPirmet db pid "created" u none (some "order_received")
              "Created from permit form (email request)."
  let db := logPirmet db pid "document_upload" u none none "Request documents bundled."
  (.renderSuccess, db)

/-- The final decision of the `basetemplate` POST (views.py lines
419-440 and 442-503): render the collected errors, render the defensive
`engineer_required` message, or run the creation tail. -/
def basetemplateFinish (clk : Clock) (u : User) (pl : IntakePayload) (db : Store)
    (enginer : Option (Nat × Enginer)) (errors : List String)
    (companyName tradeLicenseNo companyAddress : String) (tradeLicenseExp : Option Nat)
    (businessActivity landline ownerPhone companyEmail : String)
    (issueDate dateOfExpiry : Option Nat) : IntakeResult × Store :=
  if !errors.isEmpty then (.renderForm errors, db)
  else
    match enginer with
    | none => (.renderForm ["engineer_required"], db)
    | some (eid, _) =>
      basetemplateCreate clk u pl db companyName tradeLicenseNo companyAddress
        tradeLicenseExp businessActivity landline ownerPhone companyEmail
        issueDate dateOfExpiry eid

/-- The POST branch of `basetemplate` (views.py lines 291-503).  The
engineer name/phone refresh at lines 394-397 persists even when later
validation fails, exactly as in the source. -/
def basetemplatePost (clk : Clock) (u : User) (pl : IntakePayload) (db : Store) :
    IntakeResult × Store :=
  let company : Option (Nat × Company) :=
    if truthyId pl.companyId then
      (findById db.companies (pl.companyId.getD 0)).map (fun c => (pl.companyId.getD 0, c))
    else none
  let errors : List String :=
    if truthyId pl.companyId && company.isNone then ["company_select_invalid"] else []
  let companyName :=
    match company with
    | some (_, c) => if pl.companyName == "" then c.name else pl.companyName
    | none => pl.companyName
  let tradeLicenseNo :=
    match company with
    | some (_, c) => if pl.tradeLicenseNo == "" then c.number else pl.tradeLicenseNo
    | none => pl.tradeLicenseNo
  let companyAddress :=
    match company with
    | some (_, c) => if pl.companyAddress == "" then c.address else pl.companyAddress
    | none => pl.companyAddress
  let landline :=
    match company with
    | some (_, c) =>
      if pl.landline == "" && truthyOptStr c.landline then c.landline.getD "" else pl.landline
    | none => pl.landline
  let ownerPhone :=
    match company with
    | some (_, c) =>
      if pl.ownerPhone == "" && truthyOptStr c.ownerPhone then c.ownerPhone.getD "" else pl.ownerPhone
    | none => pl.ownerPhone
  let companyEmail :=
    match company with
    | some (_, c) =>
      if pl.companyEmail == "" && truthyOptStr c.email then c.email.getD "" else pl.companyEmail
    | none => pl.companyEmail
  let businessActivity := String.intercalate "," pl.businessActivity
  let businessActivity :=
    match company with
    | some (_, c) =>
      if businessActivity == "" && truthyOptStr c.businessActivity then c.businessActivity.getD ""
      else businessActivity
    | none => businessActivity
  let errors := errors ++ (if companyName == "" then ["company_name_required"] else [])
  let errors := errors ++ (if tradeLicenseNo == "" then ["trade_license_no_required"] else [])
  let errors := errors ++ (if companyAddress == "" then ["company_address_required"] else [])
  let (tradeLicenseExp, errors) : Option Nat × List String :=
    match pl.tradeLicenseExp with
    | .valid d => (some d, errors)
    | .invalid => (none, errors ++ ["trade_license_exp_invalid"])
    | .absent =>
      match company with
      | some (_, c) => (c.tradeLicenseExp, errors)
      | none => (none, errors)
  let companyHasTle :=
    match company with
    | some (_, c) => c.tradeLicenseExp.isSome
    | none => false
  let errors := errors ++
    (if tradeLicenseExp.isNone && pl.tradeLicenseExp == .absent && !companyHasTle then
      ["trade_license_exp_required"] else [])
  let issueDate : Option Nat := match pl.issueDate with | .valid d => some d | _ => none
  let dateOfExpiry : Option Nat := match pl.expiryDate with | .valid d => some d | _ => none
  let errors := errors ++ (if pl.requestEmail == "" then ["request_email_required"] else [])
  let resolved := intakeResolveEnginer pl db company errors
  let enginer := resolved.1
  let errors := resolved.2.1
  let db := resolved.2.2
  let invalidDocs := pl.documents.filter (fun d => !validDocExt d)
  let errors := errors ++
    (if pl.documents.isEmpty then ["documents_required"]
     else if !invalidDocs.isEmpty then ["documents_invalid"] else [])
  basetemplateFinish clk u pl db enginer errors companyName tradeLicenseNo
    companyAddress tradeLicenseExp businessActivity landline ownerPhone
    companyEmail issueDate dateOfExpiry

/-! ### add_company (views.py lines 2199-2336) and company_detail
(views.py lines 1988-2197) -/

structure CompanyPayload where
  action : String := ""
  extensionType : String := ""
  extensionDocument : Option String := none
  name : String := ""
  number : String := ""
  address : String := ""
  tradeLicenseExp : DateInput := .absent
  landline : String := ""
  ownerPhone : String := ""
  email : String := ""
  businessActivity : List String := []
  enginerId : String := ""
  pestControlType : String := ""
deriving Repr, DecidableEq

inductive CompanyResult where
  | notFound
  | redirectLogin
  | forbidden
  | renderForm (error : Option String)
  | redirectCompanyList
  | redirectCompanyDetail (id : Nat)
deriving Repr, DecidableEq

/-- Decimal parse of a posted primary-key string. -/
def parseIntString (s : String) : Option Nat :=
  let cs := s.toList
  if !cs.isEmpty && cs.all (fun c => c.isDigit) then
    some (cs.foldl (fun acc c => acc * 10 + (c.toNat - 48)) 0)
  else none

/-- `Enginer.objects.get(id=enginer_id)` on the raw POST string; a
non-numeric id is treated as not found. -/
def lookupEnginerByRawId (db : Store) (raw : String) : Option (Nat × Enginer) :=
  match parseIntString raw with
  | some n => (findById db.engineers n).map (fun e => (n, e))
  | none => none

/-- The `add_company` view (views.py lines 2199-2336), POST branch. -/
def addCompanyPost (u : User) (pl : CompanyPayload) (db : Store) :
    CompanyResult × Store :=
  if !u.isAuthenticated then (.redirectLogin, db)
  else if !canDataEntry u then (.forbidden, db)
  else
    let businessActivity := String.intercalate "," pl.businessActivity
    let (error, tradeLicenseExp) : Option String × Option Nat :=
      if pl.name == "" || pl.number == "" || pl.address == "" || pl.enginerId == "" then
        (some "يرجى تعبئة جميع الحقول المطلوبة.", none)
      else if pl.pestControlType == "" then
        (some "يرجى اختيار نوع المكافحة.", none)
      else
        match pl.tradeLicenseExp with
        | .absent => (none, none)
        | .invalid => (some "تاريخ انتهاء الرخصة غير صالح.", none)
        | .valid d => (none, some d)
    match error with
    | some e => (.renderForm (some e), db)
    | none =>
      match lookupEnginerByRawId db pl.enginerId with
      | none => (.renderForm (some "لم يتم العثور على المهندس."), db)
      | some (eid, eng) =>
        if !truthyOptStr eng.publicHealthCert then
          (.renderForm (some "لا يمكن اختيار المهندس قبل إرفاق شهادة نجاح الصحة العامة."), db)
        else if pl.pestControlType == "termite_control" && !truthyOptStr eng.termiteCert then
          (.renderForm (some "لا يمكن اختيار مهندس لمكافحة النمل الأبيض بدون شهادة النمل الأبيض."), db)
        else
          let cid := db.nextCompanyId
          let c : Company :=
            { name := pl.name, number := pl.number, address := pl.address,
              tradeLicenseExp := tradeLicenseExp,
              businessActivity := if businessActivity != "" then some businessActivity else none,
              landline := if pl.landline != "" then some pl.landline else none,
              ownerPhone := if pl.ownerPhone != "" then some pl.ownerPhone else none,
              email := if pl.email != "" then some pl.email else none,
              enginerId := some eid,
              pestControlType := some pl.pestControlType }
          let db := { db with companies := db.companies ++ [(cid, c)], nextCompanyId := cid + 1 }
          let db := logCompany db cid "created" u "" none
          (.redirectCompanyList, db)

/-- The certificate check of the `company_detail` edit form (views.py
lines 2083-2094), shared with the validation chain below. -/
def companyEditEnginer (pl : CompanyPayload) (db : Store) (tle : Option Nat) :
    Option String × Option Nat × Option (Nat × Enginer) :=
  match lookupEnginerByRawId db pl.enginerId with
  | none => (some "لم يتم العثور على المهندس.", tle, none)
  | some (eid, eng) =>
    if !truthyOptStr eng.publicHealthCert then
      (some "لا يمكن اختيار المهندس قبل إرفاق شهادة نجاح الصحة العامة.", tle, some (eid, eng))
    else if pl.pestControlType == "termite_control" && !truthyOptStr eng.termiteCert then
      (some "لا يمكن اختيار مهندس لمكافحة النمل الأبيض بدون شهادة النمل الأبيض.", tle, some (eid, eng))
    else (none, tle, some (eid, eng))

/-- The validation chain of the `company_detail` edit form (views.py
lines 2068-2094): required fields, pest-control type, trade-license
date, engineer lookup, and the two certificate gates.  Returns the
error, the parsed date and the resolved engineer. -/
def companyDetailEditValidate (pl : CompanyPayload) (db : Store) :
    Option String × Option Nat × Option (Nat × Enginer) :=
  if pl.name == "" || pl.number == "" || pl.address == "" || pl.enginerId == "" then
    (some "يرجى تعبئة جميع الحقول المطلوبة.", none, none)
  else if pl.pestControlType == "" then
    (some "يرجى اختيار نوع المكافحة.", none, none)
  else
    match pl.tradeLicenseExp with
    | .invalid => (some "تاريخ انتهاء الرخصة غير صالح.", none, none)
    | .absent => companyEditEnginer pl db none
    | .valid d => companyEditEnginer pl db (some d)

/-- The success tail of the `company_detail` edit form (views.py lines
2096-2146): track changed labels, save the company, and write the
`engineer_changed` and `updated` change-log entries. -/
def companyDetailEditApply (u : User) (cid : Nat) (pl : CompanyPayload) (db : Store)
    (company : Company) (tradeLicenseExp : Option Nat) (eid : Nat) (eng : Enginer) :
    CompanyResult × Store :=
  let businessActivity := String.intercalate "," pl.businessActivity
  let changedLabels : List String :=
    (if company.name != pl.name then ["الاسم التجاري"] else []) ++
    (if company.number != pl.number then ["رقم الرخصة التجارية"] else []) ++
    (if company.address != pl.address then ["عنوان الشركة"] else []) ++
    (if company.tradeLicenseExp != tradeLicenseExp then ["تاريخ انتهاء الرخصة التجارية"] else []) ++
    (if company.businessActivity.getD "" != businessActivity then ["أنشطة الرخصة"] else []) ++
    (if company.landline.getD "" != pl.landline then ["رقم الهاتف الأرضي"] else []) ++
    (if company.ownerPhone.getD "" != pl.ownerPhone then ["رقم هاتف المالك"] else []) ++
    (if company.email.getD "" != pl.email then ["البريد الإلكتروني"] else []) ++
    (if company.pestControlType.getD "" != pl.pestControlType then ["نوع المكافحة"] else [])
  let engineerChanged := company.enginerId != some eid
  let c : Company :=
    { name := pl.name, number := pl.number, address := pl.address,
      tradeLicenseExp := tradeLicenseExp,
      businessActivity := if businessActivity != "" then some businessActivity else none,
      landline := if pl.landline != "" then some pl.landline else none,
      ownerPhone := if pl.ownerPhone != "" then some pl.ownerPhone else none,
      email := if pl.email != "" then some pl.email else none,
      pestControlType := some pl.pestControlType,
      enginerId := some eid }
  let db := { db with companies := setById db.companies cid c }
  let db :=
    if engineerChanged then
      let oldName :=
        match company.enginerId with
        | some oldId => match findById db.engineers oldId with
          | some oldEng => oldEng.name
          | none => "بدون مهندس"
        | none => "بدون مهندس"
      logCompany db cid "engineer_changed" u
        ("تغيير المهندس من " ++ oldName ++ " إلى " ++ eng.name) none
    else db
  let db :=
    if !changedLabels.isEmpty then
      logCompany db cid "updated" u ("تم تحديث: " ++ String.intercalate "، " changedLabels) none
    else db
  (.redirectCompanyDetail cid, db)

/-- The POST branch of `company_detail` (views.py lines 2007-2146):
either the extension-request action or the admin edit form. -/
def companyDetailPost (u : User) (cid : Nat) (pl : CompanyPayload) (db : Store) :
    CompanyResult × Store :=
  match findById db.companies cid with
  | none => (.notFound, db)
  | some company =>
    if !u.isAuthenticated then (.redirectLogin, db)
    else if pl.action == "request_extension" then
      if !canDataEntry u then (.forbidden, db)
      else
        let extensionError : Option String :=
          if pl.extensionType == "" then some "يرجى إدخال نوع المهلة." else none
        let extensionError : Option String :=
          match pl.extensionDocument with
          | none =>
            match extensionError with
            | some e => some e
            | none => some "يرجى إرفاق مستند المهلة."
          | some f =>
            if !validDocExt f then some "المستندات المسموحة هي PDF أو صور فقط."
            else extensionError
        match extensionError with
        | some _ => (.renderForm none, db)
        | none =>
          let db := logCompany db cid "extension_requested" u
            ("طلب مهلة: " ++ pl.extensionType) pl.extensionDocument
          (.redirectCompanyDetail cid, db)
    else if !canAdmin u then (.forbidden, db)
    else
      let v := companyDetailEditValidate pl db
      match v.1, v.2.2 with
      | none, some (eid, eng) => companyDetailEditApply u cid pl db company v.2.1 eid eng
      | _, _ => (.renderForm v.1, db)

/-! ### company_list activity keys (views.py lines 1907-1931) -/

/-- Splitting a comma-separated activity string, dropping blanks
(views.py lines 1914-1920). -/
def splitActivities (value : String) : List String :=
  ((value.splitOn ",").map String.trim).filter (fun x => x != "")

/-- The raw activity keys of a company row: the latest issued
pest-control permit's allowed activities when present, else the
company's own `pest_control_type` (views.py lines 1914-1922). -/
def rawActivityKeys (permit : Option Permit) (pestControlType : Option String) :
    List String :=
  let fromType := if truthyOptStr pestControlType then [pestControlType.getD ""] else []
  match permit with
  | some p =>
    if truthyOptStr p.allowedActivities then splitActivities (p.allowedActivities.getD "")
    else fromType
  | none => fromType

/-- The prepend rule (views.py lines 1923-1924): whenever
`termite_control` is present without `public_health_pest_control`,
`public_health_pest_control` is prepended. -/
def normalizeActivityKeys (keys : List String) : List String :=
  if keys.contains "termite_control" && !keys.contains "public_health_pest_control" then
    "public_health_pest_control" :: keys
  else keys

def companyActivityKeys (permit : Option Permit) (pestControlType : Option String) :
    List String :=
  normalizeActivityKeys (rawActivityKeys permit pestControlType)

/-! ### The spec's transition table (spec.md section 4.1)

`specAllowedPair status action` transcribes the allowed (state, action)
pairs of the spec's transition table.  It is the reference side of the
transition-legality claim and is deliberately written from the spec's
words, not from the source. -/

def specAllowedPair (status action : String) : Bool :=
  (action == "create") ||
  (action == "delete") ||
  (action == "send_inspection_payment_link" &&
    (status == "order_received" || status == "inspection_payment_pending")) ||
  (action == "inspection_payment" && status == "inspection_payment_pending") ||
  ((action == "receive_for_inspection" || action == "submit_inspection_report") &&
    status == "inspection_pending") ||
  ((action == "approve" || action == "needs_completion" || action == "reject") &&
    status == "review_pending") ||
  (action == "complete_missing" && status == "needs_completion") ||
  (action == "send_payment_link" &&
    (status == "inspection_completed" || status == "approved")) ||
  (action == "payment" && status == "payment_pending") ||
  (action == "issue" &&
    (status == "payment_completed" || status == "inspection_completed")) ||
  (action == "update_permit_details" &&
    (status == "payment_completed" || status == "issued"))

/-! ### Concrete fixtures used by witnesses and counterexamples -/

def clk0 : Clock := { today := 20250, todayYear := 2025 }

def adminUser : User :=
  { id := 7, isAuthenticated := true, isSuperuser := false, groups := [ROLE_ADMIN] }

def dataEntryUser : User :=
  { id := 8, isAuthenticated := true, isSuperuser := false, groups := [ROLE_DATA_ENTRY] }

def inspectorUser : User :=
  { id := 9, isAuthenticated := true, isSuperuser := false, groups := [ROLE_INSPECTOR] }

def anonUser : User :=
  { id := 0, isAuthenticated := false, isSuperuser := false, groups := [] }

/-! ### Helper lemmas -/

theorem isAuthenticated_of_userInGroups (u : User) (gs : List String)
    (h : userInGroups u gs = true) : u.isAuthenticated = true := by
  cases hA : u.isAuthenticated
  · simp [userInGroups, hA] at h
  · rfl

theorem isAuthenticated_of_canAdmin (u : User) (h : canAdmin u = true) :
    u.isAuthenticated = true :=
  isAuthenticated_of_userInGroups u [ROLE_ADMIN] h

theorem findById_setById {α : Type} (rows : List (Nat × α)) (i : Nat) (v : α)
    (h : (findById rows i).isSome) : findById (setById rows i v) i = some v := by
  induction rows with
  | nil => simp [findById] at h
  | cons hd tl ih =>
    by_cases hk : hd.1 = i
    · simp [findById, setById, List.find?, hk]
    · have hk2 : (hd.1 == i) = false := by simp [hk]
      have h2 : (findById tl i).isSome := by
        simpa [findById, List.find?, hk2] using h
      simpa [findById, setById, List.find?, hk2] using ih h2

theorem findById_append_fresh {α : Type} (rows : List (Nat × α)) (i : Nat) (v : α)
    (h : findById rows i = none) : findById (rows ++ [(i, v)]) i = some v := by
  induction rows with
  | nil => simp [findById, List.find?]
  | cons hd tl ih =>
    by_cases hk : hd.1 = i
    · simp [findById, List.find?, hk] at h
    · have hk2 : (hd.1 == i) = false := by simp [hk]
      simp only [findById, List.cons_append, List.find?, hk2] at h ⊢
      exact ih h

/-! ### Claim theorems -/

/-- Claim C9: whenever an activity-key list contains `termite_control`
but not `public_health_pest_control`, the normalization rule of
`company_list` prepends `public_health_pest_control`, so it comes first,
ahead of `termite_control`; in particular a company whose only key is its
`termite_control` pest-control type yields
`[public_health_pest_control, termite_control]`. -/
theorem activity_prepend_rule :
    (∀ keys : List String, keys.contains "termite_control" = true →
      keys.contains "public_health_pest_control" = false →
      normalizeActivityKeys keys = "public_health_pest_control" :: keys ∧
      (normalizeActivityKeys keys).head? = some "public_health_pest_control") ∧
    companyActivityKeys none (some "termite_control") =
      ["public_health_pest_control", "termite_control"] := by
  refine ⟨fun keys h1 h2 => ?_, by rfl⟩
  have h1m : "termite_control" ∈ keys := List.mem_of_elem_eq_true h1
  have h2m : "public_health_pest_control" ∉ keys := fun hm => by
    have := List.elem_eq_true_of_mem hm
    rw [List.contains] at h2
    rw [this] at h2; cases h2
  constructor
  · simp [normalizeActivityKeys, h1m, h2m]
  · simp [normalizeActivityKeys, h1m, h2m]

/-- Witness for C9 at the concrete key list of a termite-only company. -/
theorem activity_prepend_rule_witness :
    normalizeActivityKeys ["termite_control"] =
      ["public_health_pest_control", "termite_control"] :=
  (activity_prepend_rule.1 ["termite_control"] (by decide) (by decide)).1

/-- Claim C5: the permit number is assigned exactly once, on the first
successful save (which is also the save that issues the primary key and
the creation year), in the form `PRM-<creation year>-<id zero-padded to
six digits>`; saving an already-persisted row never changes anything,
and ids below 1000000 give exactly six digits. -/
theorem permit_no_assigned_once :
    (∀ (freshPk todayYear : Nat) (p : PermitRow), p.pk = none → p.permitNo = none →
      (permitRowSave freshPk todayYear p).permitNo =
        some ("PRM-" ++ Nat.repr todayYear ++ "-" ++ padZeros 6 freshPk) ∧
      (permitRowSave freshPk todayYear p).pk = some freshPk ∧
      (permitRowSave freshPk todayYear p).dateOfCreationYear = some todayYear) ∧
    (∀ (freshPk todayYear : Nat) (q : PermitRow), q.pk.isSome →
      permitRowSave freshPk todayYear q = q) ∧
    (∀ n : Nat, n < 1000000 → (padZeros 6 n).length = 6) := by
  refine ⟨fun freshPk todayYear p hpk hno => ?_, fun freshPk todayYear q hq => ?_, fun n hn => ?_⟩
  · simp [permitRowSave, hpk, hno, truthyOptStr, generatePermitNo]
  · unfold permitRowSave
    have : q.pk.isNone = false := by
      cases hv : q.pk
      · rw [hv] at hq; simp at hq
      · rfl
    simp [this]
  · have hlen : (Nat.repr n).length ≤ 6 :=
      Nat.repr_length n 6 (by norm_num) (by simpa using hn)
    have h1 : (String.mk (List.replicate (6 - (Nat.repr n).length) '0')).length =
        6 - (Nat.repr n).length := List.length_replicate _ _
    simp only [padZeros]
    rw [String.length_append, h1]
    omega

/-- Witness for C5: saving a fresh row with id 12 in 2025 yields
`PRM-2025-000012`; re-saving it changes nothing. -/
theorem permit_no_assigned_once_witness :
    (permitRowSave 12 2025 {}).permitNo = some "PRM-2025-000012" ∧
    permitRowSave 99 2026 (permitRowSave 12 2025 {}) = permitRowSave 12 2025 {} ∧
    (padZeros 6 12).length = 6 := by
  refine ⟨?_, ?_, ?_⟩
  · rw [(permit_no_assigned_once.1 12 2025 {} rfl rfl).1]; rfl
  · exact permit_no_assigned_once.2.1 99 2026 (permitRowSave 12 2025 {}) (by decide)
  · exact permit_no_assigned_once.2.2 12 (by norm_num)

/-- Claim C10: an unauthenticated POST against the clearance-list or
permit-detail endpoint is redirected to the login page before any action
dispatch: the store is unchanged (no permit mutation, no audit entry). -/
theorem unauthenticated_post_redirects_to_login :
    (∀ (clk : Clock) (u : User) (pl : ListPayload) (db : Store),
      u.isAuthenticated = false →
      clearanceListPost clk u pl db = (.redirectLogin, db)) ∧
    (∀ (u : User) (pid : Nat) (pl : DetailPayload) (db : Store) (p : Permit),
      findById db.permits pid = some p → u.isAuthenticated = false →
      pirmetDetailPost u pid pl db = (.redirectLogin, db)) := by
  constructor
  · intro clk u pl db h
    simp [clearanceListPost, h]
  · intro u pid pl db p hp h
    simp [pirmetDetailPost, hp, h]

/-- Witness for C10 at a concrete anonymous user and store. -/
theorem unauthenticated_post_redirects_to_login_witness :
    clearanceListPost clk0 anonUser
      { action := "payment", pirmetId := some 1 }
      { permits := [(1, { companyId := 1, status := "payment_pending" })] } =
    (.redirectLogin, { permits := [(1, { companyId := 1, status := "payment_pending" })] }) :=
  unauthenticated_post_redirects_to_login.1 clk0 anonUser
    { action := "payment", pirmetId := some 1 }
    { permits := [(1, { companyId := 1, status := "payment_pending" })] } rfl

/-! ### Fixtures for the faulting clearance_list actions -/

def permIPP : Permit := { companyId := 1, status := "inspection_payment_pending" }

def dbIPP : Store := { permits := [(1, permIPP)] }

def plIP : ListPayload :=
  { action := "inspection_payment", pirmetId := some 1,
    inspectionPaymentReference := "REF-77",
    inspectionPaymentReceipt := some "receipt.pdf" }

/-- Claim C2 counterexample: a permit sits in
`inspection_payment_pending`, the acting user is an admin, the payload
carries a pdf receipt and a non-empty reference, yet the
`inspection_payment` action does not succeed: `clearance_list` faults on
the unbound local `pirmet` in its dead duplicate branch, the store is
untouched, no audit entry is written, and the status never becomes
`inspection_pending`. -/
theorem inspection_payment_counterexample :
    (clearanceListPost clk0 adminUser plIP dbIPP).1 = .nameFault "pirmet" ∧
    (clearanceListPost clk0 adminUser plIP dbIPP).2 = dbIPP ∧
    (clearanceListPost clk0 adminUser plIP dbIPP).2.logs = [] ∧
    ¬ ((findById (clearanceListPost clk0 adminUser plIP dbIPP).2.permits 1).map
        Permit.status = some "inspection_pending") := by
  refine ⟨by decide, by decide, by decide, by decide⟩

/-- Claim C2 (amended): in `clearance_list` every authenticated
`inspection_payment` POST faults on an unbound local (`pirmet` for
admins, `review_errors` for everyone else) with the store untouched; the
handler it shadows (views.py lines 1475-1524) would, for an admin, a
non-zero permit id resolving to a permit in
`inspection_payment_pending`, a non-empty reference and a receipt with
an allowed extension, set the status to `review_pending` (not
`inspection_pending`) and append one `payment_update` audit entry. -/
theorem inspection_payment_behaviour :
    (∀ (clk : Clock) (u : User) (pl : ListPayload) (db : Store),
      u.isAuthenticated = true → pl.action = "inspection_payment" →
      (clearanceListPost clk u pl db).1 =
        .nameFault (if canAdmin u then "pirmet" else "review_errors") ∧
      (clearanceListPost clk u pl db).2 = db) ∧
    (∀ (u : User) (pl : ListPayload) (db : Store) (pid : Nat) (p : Permit) (f : String),
      canAdmin u = true → pl.pirmetId = some pid → pid ≠ 0 →
      findById db.permits pid = some p → p.status = "inspection_payment_pending" →
      pl.inspectionPaymentReference ≠ "" →
      pl.inspectionPaymentReceipt = some f → validDocExt f = true →
      (clearanceInspectionPayment u pl db).1 = .redirectList ∧
      (findById (clearanceInspectionPayment u pl db).2.permits pid).map Permit.status =
        some "review_pending" ∧
      (clearanceInspectionPayment u pl db).2.logs = db.logs ++
        [{ pirmetId := pid, changeType := "payment_update",
           oldStatus := some "inspection_payment_pending",
           newStatus := some "review_pending",
           notes := "Inspection payment recorded: " ++ pl.inspectionPaymentReference,
           changedBy := some u.id }]) := by
  constructor
  · intro clk u pl db hauth hact
    constructor <;> simp [clearanceListPost, hauth, hact]
  · intro u pl db pid p f hadmin hpid hpid0 hfind hstatus href hrec hext
    have ht : truthyId (some pid) = true := by simp [truthyId, hpid0]
    have hauth : u.isAuthenticated = true := isAuthenticated_of_canAdmin u hadmin
    have hrefb : (pl.inspectionPaymentReference == "") = false := by
      simpa using href
    refine ⟨?_, ?_, ?_⟩ <;>
      simp [clearanceInspectionPayment, hadmin, hpid, ht, hfind, hstatus, hrefb,
            hrec, hext, hauth, logPirmet,
            findById_setById db.permits pid _ (by simp [hfind])]

/-- Witness for the amended C2 theorem at the concrete fixtures. -/
theorem inspection_payment_behaviour_witness :
    ((clearanceListPost clk0 adminUser plIP dbIPP).1 = .nameFault "pirmet" ∧
      (clearanceListPost clk0 adminUser plIP dbIPP).2 = dbIPP) ∧
    (clearanceInspectionPayment adminUser plIP dbIPP).1 = .redirectList ∧
    (findById (clearanceInspectionPayment adminUser plIP dbIPP).2.permits 1).map
      Permit.status = some "review_pending" := by
  have h1 := inspection_payment_behaviour.1 clk0 adminUser plIP dbIPP (by decide) (by decide)
  have h2 := inspection_payment_behaviour.2 adminUser plIP dbIPP 1 permIPP "receipt.pdf"
    (by decide) (by decide) (by decide) (by decide) (by decide) (by decide) (by decide) (by decide)
  exact ⟨⟨by simpa using h1.1, h1.2⟩, h2.1, h2.2.1⟩

/-! ### Fixtures for C4 and C6 -/

def plURE : ListPayload := { action := "update_request_email", pirmetId := some 1 }

def plPay : ListPayload :=
  { action := "payment", pirmetId := some 1, paymentNumber := "P-1",
    paymentReceipt := some "pay.pdf" }

/-- Claim C4: the spec says every action handler collects its errors into
a list and re-renders rather than raising; the `clearance_list` dispatch
contradicts this: its first seven handler blocks evaluate unbound names
on every path.  At the concrete failing inputs below the dispatch faults
on `review_errors` (a `NameError`: the name is bound nowhere in the
function) or on `pirmet` (an `UnboundLocalError`: the name is only
assigned in later blocks), instead of rendering. -/
theorem handler_unbound_name_fault :
    (clearanceListPost clk0 adminUser plURE dbIPP).1 = .nameFault "review_errors" ∧
    (clearanceListPost clk0 dataEntryUser plPay dbIPP).1 = .nameFault "review_errors" ∧
    (clearanceListPost clk0 adminUser plPay dbIPP).1 = .nameFault "pirmet" ∧
    (clearanceListPost clk0 adminUser plPay dbIPP).2 = dbIPP := by
  refine ⟨by decide, by decide, by decide, by decide⟩

def permOR : Permit := { companyId := 1, status := "order_received" }

def dbOR : Store := { permits := [(1, permOR)] }

def plSIPL : ListPayload :=
  { action := "send_inspection_payment_link", pirmetId := some 1,
    inspectionPaymentLink := "https://pay.example/7",
    inspectionPaymentEmail := "req@example.com",
    inspectionPaymentReference := "REF-9" }

/-- Claim C6 counterexample: a permit in `order_received`, an admin and a
complete link/email/reference payload, yet `send_inspection_payment_link`
does not succeed: the dispatch faults on the unbound local `pirmet` in
the dead duplicate branch and the store is untouched. -/
theorem send_inspection_link_counterexample :
    (clearanceListPost clk0 adminUser plSIPL dbOR).1 = .nameFault "pirmet" ∧
    (clearanceListPost clk0 adminUser plSIPL dbOR).2 = dbOR ∧
    ¬ ((findById (clearanceListPost clk0 adminUser plSIPL dbOR).2.permits 1).map
        Permit.status = some "inspection_payment_pending") := by
  refine ⟨by decide, by decide, by decide⟩

/-- Claim C6 (amended): every authenticated
`send_inspection_payment_link` POST to `clearance_list` faults on an
unbound local with the store untouched; the handler it shadows (views.py
lines 1423-1473) accepts only status `order_received` — advancing it to
`inspection_payment_pending` with one `status_change` audit entry — and
performs no idempotent update while the permit is already in
`inspection_payment_pending`: it rejects with an error and no mutation. -/
theorem send_inspection_link_behaviour :
    (∀ (clk : Clock) (u : User) (pl : ListPayload) (db : Store),
      u.isAuthenticated = true → pl.action = "send_inspection_payment_link" →
      (clearanceListPost clk u pl db).1 =
        .nameFault (if canAdmin u then "pirmet" else "review_errors") ∧
      (clearanceListPost clk u pl db).2 = db) ∧
    (∀ (u : User) (pl : ListPayload) (db : Store) (pid : Nat) (p : Permit),
      canAdmin u = true → pl.pirmetId = some pid → pid ≠ 0 →
      findById db.permits pid = some p → p.status = "order_received" →
      pl.inspectionPaymentLink ≠ "" → pl.inspectionPaymentEmail ≠ "" →
      pl.inspectionPaymentReference ≠ "" →
      (clearanceSendInspectionPaymentLink u pl db).1 = .redirectList ∧
      (findById (clearanceSendInspectionPaymentLink u pl db).2.permits pid).map
        Permit.status = some "inspection_payment_pending" ∧
      (clearanceSendInspectionPaymentLink u pl db).2.logs = db.logs ++
        [{ pirmetId := pid, changeType := "status_change",
           oldStatus := some "order_received",
           newStatus := some "inspection_payment_pending",
           notes := "Inspection payment link sent to " ++ pl.inspectionPaymentEmail ++
             ": " ++ pl.inspectionPaymentLink,
           changedBy := some u.id }]) ∧
    (∀ (u : User) (pl : ListPayload) (db : Store) (pid : Nat) (p : Permit),
      pl.pirmetId = some pid → pid ≠ 0 →
      findById db.permits pid = some p → p.status = "inspection_payment_pending" →
      (clearanceSendInspectionPaymentLink u pl db).2 = db) := by
  refine ⟨?_, ?_, ?_⟩
  · intro clk u pl db hauth hact
    constructor <;> simp [clearanceListPost, hauth, hact]
  · intro u pl db pid p hadmin hpid hpid0 hfind hstatus hlink hemail href
    have ht : truthyId (some pid) = true := by simp [truthyId, hpid0]
    have hauth : u.isAuthenticated = true := isAuthenticated_of_canAdmin u hadmin
    have hlinkb : (pl.inspectionPaymentLink == "") = false := by simpa using hlink
    have hemailb : (pl.inspectionPaymentEmail == "") = false := by simpa using hemail
    have hrefb : (pl.inspectionPaymentReference == "") = false := by simpa using href
    refine ⟨?_, ?_, ?_⟩ <;>
      simp [clearanceSendInspectionPaymentLink, hadmin, hpid, ht, hfind, hstatus,
            hlinkb, hemailb, hrefb, hauth, logPirmet,
            findById_setById db.permits pid _ (by simp [hfind])]
  · intro u pl db pid p hpid hpid0 hfind hstatus
    have ht : truthyId (some pid) = true := by simp [truthyId, hpid0]
    by_cases hadmin : canAdmin u = true
    · simp [clearanceSendInspectionPaymentLink, hadmin, hpid, ht, hfind, hstatus]
    · simp [clearanceSendInspectionPaymentLink, Bool.of_not_eq_true hadmin]

/-- Witness for the amended C6 theorem at the concrete fixtures: the
dispatch faults; the shadowed handler advances `order_received` and
rejects a permit already in `inspection_payment_pending`. -/
theorem send_inspection_link_behaviour_witness :
    ((clearanceListPost clk0 adminUser plSIPL dbOR).2 = dbOR) ∧
    (clearanceSendInspectionPaymentLink adminUser plSIPL dbOR).1 = .redirectList ∧
    (findById (clearanceSendInspectionPaymentLink adminUser plSIPL dbOR).2.permits 1).map
      Permit.status = some "inspection_payment_pending" ∧
    (clearanceSendInspectionPaymentLink adminUser plSIPL dbIPP).2 = dbIPP := by
  have h1 := send_inspection_link_behaviour.1 clk0 adminUser plSIPL dbOR (by decide) (by decide)
  have h2 := send_inspection_link_behaviour.2.1 adminUser plSIPL dbOR 1 permOR
    (by decide) (by decide) (by decide) (by decide) (by decide) (by decide) (by decide) (by decide)
  have h3 := send_inspection_link_behaviour.2.2 adminUser plSIPL dbIPP 1 permIPP
    (by decide) (by decide) (by decide) (by decide)
  exact ⟨h1.2, h2.1, h2.2.1, h3⟩

/-! ### Store invariance of the intake sub-steps -/

theorem upsertCompany_store (db : Store) (name number address : String)
    (tle : Option Nat) (ba ll op em : String) (eng : Option Nat) :
    (upsertCompany db name number address tle ba ll op em eng).1.permits = db.permits ∧
    (upsertCompany db name number address tle ba ll op em eng).1.logs = db.logs ∧
    (upsertCompany db name number address tle ba ll op em eng).1.nextPermitId =
      db.nextPermitId := by
  unfold upsertCompany
  rcases hf : findCompanyByNameNumber db.companies name number with _ | ⟨cid, c⟩ <;> simp

theorem intakeResolveEnginer_store (pl : IntakePayload) (db : Store)
    (company : Option (Nat × Company)) (errors : List String) :
    (intakeResolveEnginer pl db company errors).2.2.permits = db.permits ∧
    (intakeResolveEnginer pl db company errors).2.2.logs = db.logs ∧
    (intakeResolveEnginer pl db company errors).2.2.nextPermitId = db.nextPermitId := by
  unfold intakeResolveEnginer
  repeat' split
  all_goals refine ⟨?_, ?_, ?_⟩ <;> (dsimp only; try split)
  all_goals rfl

theorem basetemplateCreate_spec (clk : Clock) (u : User) (pl : IntakePayload)
    (db : Store) (companyName tradeLicenseNo companyAddress : String)
    (tradeLicenseExp : Option Nat) (businessActivity landline ownerPhone companyEmail : String)
    (issueDate dateOfExpiry : Option Nat) (eid : Nat)
    (hfresh : findById db.permits db.nextPermitId = none) :
    (basetemplateCreate clk u pl db companyName tradeLicenseNo companyAddress
        tradeLicenseExp businessActivity landline ownerPhone companyEmail
        issueDate dateOfExpiry eid).1 = .renderSuccess ∧
    (findById (basetemplateCreate clk u pl db companyName tradeLicenseNo companyAddress
        tradeLicenseExp businessActivity landline ownerPhone companyEmail
        issueDate dateOfExpiry eid).2.permits db.nextPermitId).map Permit.status =
      some "order_received" ∧
    ∃ e ∈ (basetemplateCreate clk u pl db companyName tradeLicenseNo companyAddress
        tradeLicenseExp businessActivity landline ownerPhone companyEmail
        issueDate dateOfExpiry eid).2.logs,
      e.pirmetId = db.nextPermitId ∧ e.changeType = "created" ∧
      e.newStatus = some "order_received" := by
  obtain ⟨hp, hl, hn⟩ := upsertCompany_store db companyName tradeLicenseNo companyAddress
    tradeLicenseExp businessActivity landline ownerPhone companyEmail (some eid)
  unfold basetemplateCreate
  refine ⟨rfl, ?_, ?_⟩
  · simp only [logPirmet, hp, hn]
    rw [findById_append_fresh db.permits db.nextPermitId _ hfresh]
    rfl
  · exact ⟨⟨db.nextPermitId, "created", none, some "order_received",
      "Created from permit form (email request).",
      if u.isAuthenticated then some u.id else none⟩,
      by simp [logPirmet, hn], rfl, rfl, rfl⟩

/-- Every `basetemplate` POST is the final decision step applied to a
store whose permit table, audit log and next permit id are unchanged
(only the engineer name/phone refresh may have run). -/
theorem basetemplatePost_eq_finish (clk : Clock) (u : User) (pl : IntakePayload)
    (db : Store) :
    ∃ enginer errors cn tln ca tle ba ll op ce isd doe dbE,
      basetemplatePost clk u pl db =
        basetemplateFinish clk u pl dbE enginer errors cn tln ca tle ba ll op ce isd doe ∧
      dbE.permits = db.permits ∧ dbE.logs = db.logs ∧
      dbE.nextPermitId = db.nextPermitId := by
  refine ⟨_, _, _, _, _, _, _, _, _, _, _, _, _, rfl, ?_, ?_, ?_⟩
  · exact (intakeResolveEnginer_store pl db _ _).1
  · exact (intakeResolveEnginer_store pl db _ _).2.1
  · exact (intakeResolveEnginer_store pl db _ _).2.2

theorem basetemplateFinish_cases (clk : Clock) (u : User) (pl : IntakePayload)
    (db : Store) (enginer : Option (Nat × Enginer)) (errors : List String)
    (cn tln ca : String) (tle : Option Nat) (ba ll op ce : String)
    (isd doe : Option Nat) :
    (∃ errs, basetemplateFinish clk u pl db enginer errors cn tln ca tle ba ll op ce
        isd doe = (.renderForm errs, db)) ∨
    (∃ eid, basetemplateFinish clk u pl db enginer errors cn tln ca tle ba ll op ce
        isd doe = basetemplateCreate clk u pl db cn tln ca tle ba ll op ce isd doe eid) := by
  unfold basetemplateFinish
  split
  · exact .inl ⟨_, rfl⟩
  · split
    · exact .inl ⟨_, rfl⟩
    · exact .inr ⟨_, rfl⟩

/-- Every run of the clearance-list `create` handler either re-renders
the collected errors with the store unchanged or runs the success
tail. -/
theorem clearanceCreate_cases (clk : Clock) (u : User) (pl : ListPayload) (db : Store) :
    (∃ errs, clearanceCreate clk u pl db = (.renderList errs, db)) ∨
    (∃ doe, clearanceCreate clk u pl db = clearanceCreateApply clk u pl db doe) := by
  unfold clearanceCreate
  split
  · exact .inl ⟨_, rfl⟩
  · rcases hD : pl.dateOfExpiry with _ | _ | d <;> simp only [hD] <;> try dsimp only
    all_goals repeat' split
    all_goals first
      | exact .inl ⟨_, rfl⟩
      | exact .inr ⟨_, rfl⟩

theorem clearanceCreateApply_spec (clk : Clock) (u : User) (pl : ListPayload)
    (db : Store) (doe : Option Nat)
    (hfresh : findById db.permits db.nextPermitId = none) :
    (clearanceCreateApply clk u pl db doe).1 = .redirectList ∧
    (findById (clearanceCreateApply clk u pl db doe).2.permits db.nextPermitId).map
      Permit.status = some "review_pending" ∧
    ∃ e ∈ (clearanceCreateApply clk u pl db doe).2.logs,
      e.pirmetId = db.nextPermitId ∧ e.changeType = "created" ∧
      e.newStatus = some "review_pending" := by
  refine ⟨rfl, ?_, ?_⟩
  · simp only [clearanceCreateApply, logPirmet]
    rw [findById_append_fresh db.permits db.nextPermitId _ hfresh]
    rfl
  · exact ⟨⟨db.nextPermitId, "created", none, some "review_pending",
      "Created from clearance list.",
      if u.isAuthenticated then some u.id else none⟩,
      by simp [clearanceCreateApply, logPirmet], rfl, rfl, rfl⟩

/-- Claim C3 (amended): a permit created by the public intake form
(`basetemplate`) starts in status `order_received` and the creation
writes a `created` audit entry; a permit created by the data-entry
`create` action on the clearance list starts in status `review_pending`
— not `order_received` — and also writes a `created` audit entry. -/
theorem creation_initial_status :
    (∀ (clk : Clock) (u : User) (pl : IntakePayload) (db : Store)
        (res : IntakeResult) (db2 : Store),
      basetemplatePost clk u pl db = (res, db2) → res = .renderSuccess →
      findById db.permits db.nextPermitId = none →
      (findById db2.permits db.nextPermitId).map Permit.status = some "order_received" ∧
      ∃ e ∈ db2.logs, e.pirmetId = db.nextPermitId ∧ e.changeType = "created" ∧
        e.newStatus = some "order_received") ∧
    (∀ (clk : Clock) (u : User) (pl : ListPayload) (db : Store)
        (res : ListResult) (db2 : Store),
      pl.action = "create" → clearanceListPost clk u pl db = (res, db2) →
      res = .redirectList →
      findById db.permits db.nextPermitId = none →
      (findById db2.permits db.nextPermitId).map Permit.status = some "review_pending" ∧
      ∃ e ∈ db2.logs, e.pirmetId = db.nextPermitId ∧ e.changeType = "created" ∧
        e.newStatus = some "review_pending") := by
  constructor
  · intro clk u pl db res db2 hEq hres hfresh
    obtain ⟨eng, errs, cn, tln, ca, tle, ba, ll, op, ce, isd, doe, dbE, hfin, hp, hl, hn⟩ :=
      basetemplatePost_eq_finish clk u pl db
    rw [hfin] at hEq
    rcases basetemplateFinish_cases clk u pl dbE eng errs cn tln ca tle ba ll op ce isd doe
      with ⟨errs2, hcase⟩ | ⟨eid, hcase⟩
    · rw [hcase] at hEq
      cases hEq
      cases hres
    · rw [hcase] at hEq
      have hfreshE : findById dbE.permits dbE.nextPermitId = none := by
        rw [hp, hn]; exact hfresh
      obtain ⟨hs, hstat, hmem⟩ := basetemplateCreate_spec clk u pl dbE cn tln ca tle
        ba ll op ce isd doe eid hfreshE
      have hdb2 : db2 =
          (basetemplateCreate clk u pl dbE cn tln ca tle ba ll op ce isd doe eid).2 := by
        rw [hEq]
      rw [hdb2, ← hn]
      exact ⟨hstat, hmem⟩
  · intro clk u pl db res db2 hact hEq hres hfresh
    have hred : clearanceListPost clk u pl db =
        if !u.isAuthenticated then ((.redirectLogin : ListResult), db)
        else clearanceCreate clk u pl db := by
      unfold clearanceListPost; rw [hact]; rfl
    rw [hred] at hEq
    split at hEq
    · cases hEq; cases hres
    · rcases clearanceCreate_cases clk u pl db with ⟨errs, hcase⟩ | ⟨doe, hcase⟩
      · rw [hcase] at hEq; cases hEq; cases hres
      · rw [hcase] at hEq
        obtain ⟨h1, h2, h3⟩ := clearanceCreateApply_spec clk u pl db doe hfresh
        have hdb2 : db2 = (clearanceCreateApply clk u pl db doe).2 := by rw [hEq]
        rw [hdb2]
        exact ⟨h2, h3⟩

def dbCr : Store := { companies := [(1, { name := "Acme", number := "TL-1" })] }

def plCr : ListPayload :=
  { action := "create", companyId := some 1, dateOfExpiry := .valid 20990,
    documents := ["request.pdf"] }

/-- Claim C3 counterexample: a data-entry user runs the clearance-list
`create` action with a valid company, expiry date and pdf document; the
action succeeds, but the permit it creates starts in status
`review_pending`, not `order_received`. -/
theorem create_status_counterexample :
    (clearanceListPost clk0 dataEntryUser plCr dbCr).1 = .redirectList ∧
    (findById (clearanceListPost clk0 dataEntryUser plCr dbCr).2.permits 1).map
      Permit.status = some "review_pending" ∧
    ¬ ((findById (clearanceListPost clk0 dataEntryUser plCr dbCr).2.permits 1).map
        Permit.status = some "order_received") := by
  refine ⟨by decide, by decide, by decide⟩

def engPH : Enginer :=
  { name := "Eng", email := "eng@example.com", phone := "050",
    publicHealthCert := some "ph.pdf" }

def dbBT : Store := { engineers := [(1, engPH)] }

def plBT : IntakePayload :=
  { companyName := "Acme", tradeLicenseNo := "TL-1", tradeLicenseExp := .valid 20990,
    companyAddress := "Street 1", requestEmail := "req@example.com",
    engineerName := "Eng", engineerEmail := "eng@example.com", engineerPhone := "050",
    documents := ["order.pdf"] }

/-- Witness for the amended C3 theorem: a successful public intake yields
`order_received`; a successful clearance-list create yields
`review_pending`. -/
theorem creation_initial_status_witness :
    (findById (basetemplatePost clk0 anonUser plBT dbBT).2.permits 1).map
      Permit.status = some "order_received" ∧
    (findById (clearanceListPost clk0 dataEntryUser plCr dbCr).2.permits 1).map
      Permit.status = some "review_pending" := by
  have h1 := (creation_initial_status.1 clk0 anonUser plBT dbBT
    (basetemplatePost clk0 anonUser plBT dbBT).1
    (basetemplatePost clk0 anonUser plBT dbBT).2 rfl (by decide) (by decide)).1
  have h2 := (creation_initial_status.2 clk0 dataEntryUser plCr dbCr
    (clearanceListPost clk0 dataEntryUser plCr dbCr).1
    (clearanceListPost clk0 dataEntryUser plCr dbCr).2 (by decide) rfl
    (by decide) (by decide)).1
  exact ⟨h1, h2⟩

theorem companyEditEnginer_gating (pl : CompanyPayload) (db : Store)
    (tle : Option Nat) (eid : Nat) (eng : Enginer)
    (h1 : (companyEditEnginer pl db tle).1 = none)
    (h2 : (companyEditEnginer pl db tle).2.2 = some (eid, eng)) :
    lookupEnginerByRawId db pl.enginerId = some (eid, eng) ∧
    truthyOptStr eng.publicHealthCert = true ∧
    (pl.pestControlType == "termite_control" && !truthyOptStr eng.termiteCert) = false := by
  unfold companyEditEnginer at h1 h2
  rcases hL : lookupEnginerByRawId db pl.enginerId with _ | ⟨eid2, eng2⟩ <;>
    rw [hL] at h1 h2 <;> dsimp only at h1 h2
  · cases h1
  · by_cases hPH : (!truthyOptStr eng2.publicHealthCert) = true
    · rw [if_pos hPH] at h1; cases h1
    · rw [if_neg hPH] at h1 h2
      by_cases hT : (pl.pestControlType == "termite_control" &&
          !truthyOptStr eng2.termiteCert) = true
      · rw [if_pos hT] at h1; cases h1
      · rw [if_neg hT] at h2
        simp only [Option.some.injEq, Prod.mk.injEq] at h2
        obtain ⟨rfl, rfl⟩ := h2
        refine ⟨rfl, ?_, ?_⟩
        · revert hPH; cases truthyOptStr eng2.publicHealthCert <;> simp
        · revert hT
          cases (pl.pestControlType == "termite_control" && !truthyOptStr eng2.termiteCert) <;>
            simp
  
theorem companyDetailEditValidate_gating (pl : CompanyPayload) (db : Store)
    (eid : Nat) (eng : Enginer)
    (h1 : (companyDetailEditValidate pl db).1 = none)
    (h2 : (companyDetailEditValidate pl db).2.2 = some (eid, eng)) :
    lookupEnginerByRawId db pl.enginerId = some (eid, eng) ∧
    truthyOptStr eng.publicHealthCert = true ∧
    (pl.pestControlType == "termite_control" && !truthyOptStr eng.termiteCert) = false := by
  unfold companyDetailEditValidate at h1 h2
  by_cases hA : (pl.name == "" || pl.number == "" || pl.address == "" ||
      pl.enginerId == "") = true
  · rw [if_pos hA] at h1; cases h1
  · rw [if_neg hA] at h1 h2
    by_cases hB : (pl.pestControlType == "") = true
    · rw [if_pos hB] at h1; cases h1
    · rw [if_neg hB] at h1 h2
      rcases hD : pl.tradeLicenseExp with _ | _ | d <;> rw [hD] at h1 h2 <;>
        dsimp only at h1 h2
      · exact companyEditEnginer_gating pl db none eid eng h1 h2
      · cases h1
      · exact companyEditEnginer_gating pl db (some d) eid eng h1 h2

/-- Claim C8: company-engineer assignment is certificate-gated.  Both on
`add_company` and on the `company_detail` edit form, resolving an
engineer without a public-health certificate writes nothing, and
resolving an engineer without a termite certificate while the posted
pest-control type is `termite_control` also writes nothing. -/
theorem certification_gating :
    (∀ (u : User) (pl : CompanyPayload) (db : Store) (eid : Nat) (e : Enginer),
      lookupEnginerByRawId db pl.enginerId = some (eid, e) →
      truthyOptStr e.publicHealthCert = false →
      (addCompanyPost u pl db).2 = db) ∧
    (∀ (u : User) (pl : CompanyPayload) (db : Store) (eid : Nat) (e : Enginer),
      lookupEnginerByRawId db pl.enginerId = some (eid, e) →
      pl.pestControlType = "termite_control" →
      truthyOptStr e.termiteCert = false →
      (addCompanyPost u pl db).2 = db) ∧
    (∀ (u : User) (cid : Nat) (pl : CompanyPayload) (db : Store) (eid : Nat) (e : Enginer),
      pl.action ≠ "request_extension" →
      lookupEnginerByRawId db pl.enginerId = some (eid, e) →
      truthyOptStr e.publicHealthCert = false →
      (companyDetailPost u cid pl db).2 = db) ∧
    (∀ (u : User) (cid : Nat) (pl : CompanyPayload) (db : Store) (eid : Nat) (e : Enginer),
      pl.action ≠ "request_extension" →
      lookupEnginerByRawId db pl.enginerId = some (eid, e) →
      pl.pestControlType = "termite_control" →
      truthyOptStr e.termiteCert = false →
      (companyDetailPost u cid pl db).2 = db) := by
  refine ⟨?_, ?_, ?_, ?_⟩
  · intro u pl db eid e hlookup hPH
    unfold addCompanyPost
    repeat' split
    all_goals first | rfl | (exfalso; simp_all)
  · intro u pl db eid e hlookup hpct htc
    unfold addCompanyPost
    repeat' split
    all_goals first | rfl | (exfalso; simp_all)
  · intro u cid pl db eid e hact hlookup hPH
    have hactb : (pl.action == "request_extension") = false := by
      simpa using hact
    unfold companyDetailPost
    rcases hfc : findById db.companies cid with _ | company
    · rfl
    · simp only [hactb, Bool.false_eq_true, if_false]
      repeat' split
      all_goals try rfl
      all_goals exfalso
      all_goals rename_i h1 h2
      all_goals obtain ⟨hL, hPH2, hT2⟩ := companyDetailEditValidate_gating pl db _ _ h1 h2
      all_goals rw [hlookup] at hL
      all_goals simp only [Option.some.injEq, Prod.mk.injEq] at hL
      all_goals obtain ⟨rfl, rfl⟩ := hL
      all_goals rw [hPH] at hPH2
      all_goals cases hPH2
  · intro u cid pl db eid e hact hlookup hpct htc
    have hactb : (pl.action == "request_extension") = false := by
      simpa using hact
    unfold companyDetailPost
    rcases hfc : findById db.companies cid with _ | company
    · rfl
    · simp only [hactb, Bool.false_eq_true, if_false]
      repeat' split
      all_goals try rfl
      all_goals exfalso
      all_goals rename_i h1 h2
      all_goals obtain ⟨hL, hPH2, hT2⟩ := companyDetailEditValidate_gating pl db _ _ h1 h2
      all_goals rw [hlookup] at hL
      all_goals simp only [Option.some.injEq, Prod.mk.injEq] at hL
      all_goals obtain ⟨rfl, rfl⟩ := hL
      all_goals rw [hpct] at hT2
      all_goals rw [htc] at hT2
      all_goals cases hT2

def engNoCert : Enginer := { name := "E2", email := "e2@example.com", phone := "051" }

def dbGate : Store :=
  { engineers := [(1, engNoCert), (2, engPH)],
    companies := [(5, { name := "Acme", number := "TL-1", address := "A" })] }

def plAddNoPH : CompanyPayload :=
  { name := "Acme", number := "TL-1", address := "A", enginerId := "1",
    pestControlType := "public_health_pest_control" }

def plAddTermite : CompanyPayload :=
  { name := "Acme", number := "TL-1", address := "A", enginerId := "2",
    pestControlType := "termite_control" }

def plEditNoPH : CompanyPayload :=
  { action := "edit", name := "Acme", number := "TL-1", address := "A",
    enginerId := "1", pestControlType := "public_health_pest_control" }

def plEditTermite : CompanyPayload :=
  { action := "edit", name := "Acme", number := "TL-1", address := "A",
    enginerId := "2", pestControlType := "termite_control" }

/-- Witness for C8 at concrete engineers: one with no certificates, one
with only a public-health certificate assigned to a termite-control
company; all four gates leave the store untouched. -/
theorem certification_gating_witness :
    (addCompanyPost dataEntryUser plAddNoPH dbGate).2 = dbGate ∧
    (addCompanyPost dataEntryUser plAddTermite dbGate).2 = dbGate ∧
    (companyDetailPost adminUser 5 plEditNoPH dbGate).2 = dbGate ∧
    (companyDetailPost adminUser 5 plEditTermite dbGate).2 = dbGate := by
  refine ⟨?_, ?_, ?_, ?_⟩
  · exact certification_gating.1 dataEntryUser plAddNoPH dbGate 1 engNoCert
      (by decide) (by decide)
  · exact certification_gating.2.1 dataEntryUser plAddTermite dbGate 2 engPH
      (by decide) (by decide) (by decide)
  · exact certification_gating.2.2.1 adminUser 5 plEditNoPH dbGate 1 engNoCert
      (by decide) (by decide) (by decide)
  · exact certification_gating.2.2.2 adminUser 5 plEditTermite dbGate 2 engPH
      (by decide) (by decide) (by decide) (by decide)

/-! ### Review upsert counting (for the idempotent-review claim) -/

theorem reviewCount_mapReplace (rs : List (Nat × Review)) (pid : Nat) (r : Review) :
    reviewCount (rs.map (fun e => if e.1 == pid then (pid, r) else e)) pid =
      reviewCount rs pid := by
  induction rs with
  | nil => rfl
  | cons hd tl ih =>
    by_cases hk : hd.1 = pid
    · simp [reviewCount, List.filter, hk] at ih ⊢
      exact ih
    · have hk2 : (hd.1 == pid) = false := by simp [hk]
      simp [reviewCount, List.filter, hk2] at ih ⊢
      exact ih

theorem reviewCount_append_one (rs : List (Nat × Review)) (pid : Nat) (r : Review) :
    reviewCount (rs ++ [(pid, r)]) pid = reviewCount rs pid + 1 := by
  simp [reviewCount, List.filter_append]

theorem reviewCount_upsert (rs : List (Nat × Review)) (pid : Nat) (r : Review) :
    reviewCount (upsertReview rs pid r) pid =
      if reviewCount rs pid = 0 then 1 else reviewCount rs pid := by
  unfold upsertReview
  by_cases hmem : rs.any (fun e => e.1 == pid) = true
  · rw [if_pos hmem, reviewCount_mapReplace]
    have hne : reviewCount rs pid ≠ 0 := by
      simp only [List.any_eq_true] at hmem
      obtain ⟨x, hx, hxe⟩ := hmem
      simp only [reviewCount, ne_eq, List.length_eq_zero]
      intro hnil
      have := List.filter_eq_nil_iff.mp hnil x hx
      simp [hxe] at this
    rw [if_neg hne]
  · rw [if_neg hmem, reviewCount_append_one]
    have hz : reviewCount rs pid = 0 := by
      simp only [List.any_eq_true, not_exists, not_and] at hmem
      simp only [reviewCount, List.length_eq_zero]
      apply List.filter_eq_nil_iff.mpr
      intro a ha
      by_cases h : a.1 = pid
      · exact absurd (by simp [h] : (a.1 == pid) = true) (hmem a ha)
      · simp [h]
    rw [hz]
    simp

/-- Dichotomy of the clearance-list `approve` handler: either it leaves
the store untouched (and does not redirect to the list), or the target
permit was found in `review_pending` and the success tail ran. -/
theorem clearanceApprove_dichotomy (u : User) (pl : ListPayload) (db : Store) (pid : Nat)
    (hpid : pl.pirmetId = some pid) :
    ((clearanceApprove u pl db).2 = db ∧ (clearanceApprove u pl db).1 ≠ .redirectList) ∨
    (∃ p, findById db.permits pid = some p ∧ p.status = "review_pending" ∧
      clearanceApprove u pl db = clearanceApproveApply u pl db pid p) := by
  unfold clearanceApprove
  split
  · exact .inl ⟨rfl, by simp⟩
  · by_cases hz : pid = 0
    · subst hz
      left
      constructor <;> simp [hpid, truthyId]
    · rcases hfp : findById db.permits pid with _ | p
      · left
        constructor <;> simp [hpid, truthyId, hz, hfp]
      · by_cases hst : p.status = "review_pending"
        · rcases hio : pl.inspectorId with _ | iid
          · left
            constructor <;> simp [hpid, truthyId, hz, hfp, hst, hio]
          · by_cases hiz : iid = 0
            · subst hiz
              left
              constructor <;> simp [hpid, truthyId, hz, hfp, hst, hio]
            · rcases hfe : findById db.engineers iid with _ | insp
              · left
                constructor <;> simp [hpid, truthyId, hz, hfp, hst, hio, hiz, hfe]
              · right
                refine ⟨p, rfl, hst, ?_⟩
                simp [hpid, truthyId, hz, hfp, hst, hio, hiz, hfe]
        · left
          constructor <;> simp [hpid, truthyId, hz, hfp, hst]

/-- Dichotomy of the clearance-list `needs_completion` / `reject`
handler, as for `approve`. -/
theorem clearanceNeedsCompletion_dichotomy (u : User) (pl : ListPayload) (db : Store)
    (pid : Nat) (hpid : pl.pirmetId = some pid) :
    ((clearanceNeedsCompletion u pl db).2 = db ∧
      (clearanceNeedsCompletion u pl db).1 ≠ .redirectList) ∨
    (∃ p, findById db.permits pid = some p ∧ p.status = "review_pending" ∧
      clearanceNeedsCompletion u pl db = clearanceNeedsCompletionApply u pl db pid p) := by
  unfold clearanceNeedsCompletion
  split
  · exact .inl ⟨rfl, by simp⟩
  · by_cases hz : pid = 0
    · subst hz
      left
      constructor <;> simp [hpid, truthyId]
    · rcases hfp : findById db.permits pid with _ | p
      · left
        constructor <;> simp [hpid, truthyId, hz, hfp]
      · by_cases hst : p.status = "review_pending"
        · by_cases hrem : pl.remarks = ""
          · left
            constructor <;> simp [hpid, truthyId, hz, hfp, hst, hrem]
          · rcases hio : pl.inspectorId with _ | iid
            · left
              constructor <;> simp [hpid, truthyId, hz, hfp, hst, hrem, hio]
            · by_cases hiz : iid = 0
              · subst hiz
                left
                constructor <;> simp [hpid, truthyId, hz, hfp, hst, hrem, hio]
              · rcases hfe : findById db.engineers iid with _ | insp
                · left
                  constructor <;> simp [hpid, truthyId, hz, hfp, hst, hrem, hio, hiz, hfe]
                · right
                  refine ⟨p, rfl, hst, ?_⟩
                  simp [hpid, truthyId, hz, hfp, hst, hrem, hio, hiz, hfe]
        · left
          constructor <;> simp [hpid, truthyId, hz, hfp, hst]

/-- One clearance-list review action (`approve`, `needs_completion` or
`reject`) either leaves the review table unchanged (without redirecting
to the list) or replaces/creates the single review row of the targeted
permit via the upsert. -/
theorem review_action_step (clk : Clock) (u : User) (pl : ListPayload) (db : Store)
    (pid : Nat)
    (hact : pl.action = "approve" ∨ pl.action = "needs_completion" ∨ pl.action = "reject")
    (hpid : pl.pirmetId = some pid) :
    ((clearanceListPost clk u pl db).2.reviews = db.reviews ∧
      (clearanceListPost clk u pl db).1 ≠ .redirectList) ∨
    (∃ r, (clearanceListPost clk u pl db).2.reviews = upsertReview db.reviews pid r ∧
      (clearanceListPost clk u pl db).1 = .redirectList) := by
  have hred : clearanceListPost clk u pl db =
      if !u.isAuthenticated then ((.redirectLogin : ListResult), db)
      else if pl.action == "approve" then clearanceApprove u pl db
      else clearanceNeedsCompletion u pl db := by
    rcases hact with h | h | h <;> (unfold clearanceListPost; rw [h]; rfl)
  rw [hred]
  cases hA : u.isAuthenticated
  · left
    constructor <;> simp
  · simp only [hA, Bool.not_true]
    rcases hact with h | h | h <;> simp only [h]
    · rcases clearanceApprove_dichotomy u pl db pid hpid with ⟨h1, h2⟩ | ⟨p, hfp, hst, happ⟩
      · left
        exact ⟨by simp [h1], by simpa using h2⟩
      · right
        refine ⟨⟨pl.inspectorId, true, pl.remarks⟩, ?_, ?_⟩ <;> simp [happ] <;> rfl
    · rcases clearanceNeedsCompletion_dichotomy u pl db pid hpid with
        ⟨h1, h2⟩ | ⟨p, hfp, hst, happ⟩
      · left
        exact ⟨by simp [h1], by simpa using h2⟩
      · right
        refine ⟨⟨pl.inspectorId, false, pl.remarks⟩, ?_, ?_⟩ <;> simp [happ] <;> rfl
    · rcases clearanceNeedsCompletion_dichotomy u pl db pid hpid with
        ⟨h1, h2⟩ | ⟨p, hfp, hst, happ⟩
      · left
        exact ⟨by simp [h1], by simpa using h2⟩
      · right
        refine ⟨⟨pl.inspectorId, false, pl.remarks⟩, ?_, ?_⟩ <;> simp [happ] <;> rfl

/-- Claim C7: starting from a permit with no InspectorReview row, any
two clearance-list review actions (`approve` / `needs_completion` /
`reject`, in any combination) targeting it leave at most one review row,
and exactly one when the first action succeeded: the review is an
upsert keyed on the permit, never a second insert. -/
theorem idempotent_review :
    ∀ (clk clk2 : Clock) (u u2 : User) (pl pl2 : ListPayload) (db : Store) (pid : Nat),
      (pl.action = "approve" ∨ pl.action = "needs_completion" ∨ pl.action = "reject") →
      (pl2.action = "approve" ∨ pl2.action = "needs_completion" ∨ pl2.action = "reject") →
      pl.pirmetId = some pid → pl2.pirmetId = some pid →
      reviewCount db.reviews pid = 0 →
      reviewCount
        (clearanceListPost clk2 u2 pl2 (clearanceListPost clk u pl db).2).2.reviews pid ≤ 1 ∧
      ((clearanceListPost clk u pl db).1 = .redirectList →
        reviewCount
          (clearanceListPost clk2 u2 pl2 (clearanceListPost clk u pl db).2).2.reviews pid = 1) := by
  intro clk clk2 u u2 pl pl2 db pid hact hact2 hpid hpid2 h0
  rcases review_action_step clk u pl db pid hact hpid with ⟨hr1, hne1⟩ | ⟨r1, hr1, hres1⟩
  · have hc1 : reviewCount (clearanceListPost clk u pl db).2.reviews pid = 0 := by
      rw [hr1]; exact h0
    rcases review_action_step clk2 u2 pl2 (clearanceListPost clk u pl db).2 pid hact2 hpid2
      with ⟨hr2, _⟩ | ⟨r2, hr2, _⟩
    · refine ⟨?_, fun hres => absurd hres hne1⟩
      rw [hr2, hc1]
      omega
    · refine ⟨?_, fun hres => absurd hres hne1⟩
      rw [hr2, reviewCount_upsert, hc1]
      simp
  · have hc1 : reviewCount (clearanceListPost clk u pl db).2.reviews pid = 1 := by
      rw [hr1, reviewCount_upsert, h0]
      simp
    rcases review_action_step clk2 u2 pl2 (clearanceListPost clk u pl db).2 pid hact2 hpid2
      with ⟨hr2, _⟩ | ⟨r2, hr2, _⟩
    · have h2 : reviewCount
          (clearanceListPost clk2 u2 pl2 (clearanceListPost clk u pl db).2).2.reviews pid = 1 := by
        rw [hr2, hc1]
      exact ⟨le_of_eq h2, fun _ => h2⟩
    · have h2 : reviewCount
          (clearanceListPost clk2 u2 pl2 (clearanceListPost clk u pl db).2).2.reviews pid = 1 := by
        rw [hr2, reviewCount_upsert, hc1]
        simp
      exact ⟨le_of_eq h2, fun _ => h2⟩

def dbRP : Store :=
  { permits := [(3, { companyId := 1, status := "review_pending" })],
    engineers := [(1, engPH)] }

def plApproveRP : ListPayload :=
  { action := "approve", pirmetId := some 3, inspectorId := some 1, remarks := "ok" }

def plNeedsRP : ListPayload :=
  { action := "needs_completion", pirmetId := some 3, inspectorId := some 1,
    remarks := "missing documents" }

/-- Witness for C7: an `approve` followed by a `needs_completion` on the
same permit leaves exactly one review row. -/
theorem idempotent_review_witness :
    reviewCount
      (clearanceListPost clk0 inspectorUser plNeedsRP
        (clearanceListPost clk0 inspectorUser plApproveRP dbRP).2).2.reviews 3 = 1 := by
  have h := idempotent_review clk0 clk0 inspectorUser inspectorUser plApproveRP plNeedsRP
    dbRP 3 (Or.inl rfl) (Or.inr (Or.inl rfl)) rfl rfl (by decide)
  exact h.2 (by decide)

/-! ### Case analyses feeding the transition-legality claim -/

theorem detailCompleteMissingApply_fst (u : User) (pid : Nat) (pirmet : Permit)
    (pl : DetailPayload) (db : Store) :
    (detailCompleteMissingApply u pid pirmet pl db).1 = .redirectDetail pid := rfl

theorem detailReviewApply_fst (u : User) (pid : Nat) (pirmet : Permit)
    (pl : DetailPayload) (db : Store) :
    (detailReviewApply u pid pirmet pl db).1 = .redirectDetail pid := by
  unfold detailReviewApply
  split <;> rfl

/-- `complete_missing` either leaves the store unchanged, or the permit
was in `needs_completion` and the success tail ran. -/
theorem detailCompleteMissing_cases (u : User) (pid : Nat) (pirmet : Permit)
    (pl : DetailPayload) (db : Store) :
    (detailCompleteMissing u pid pirmet pl db).2 = db ∨
    (pirmet.status = "needs_completion" ∧
      detailCompleteMissing u pid pirmet pl db = detailCompleteMissingApply u pid pirmet pl db) := by
  by_cases hst : pirmet.status = "needs_completion"
  · unfold detailCompleteMissing
    dsimp only
    repeat' split
    all_goals first
      | exact .inl rfl
      | exact .inr ⟨hst, rfl⟩
  · left
    unfold detailCompleteMissing
    dsimp only
    have hb : (pirmet.status != "needs_completion") = true := by simp [hst]
    simp [hb]

/-- The permit-detail review actions either leave the store unchanged,
or the permit was in `review_pending` and the success tail ran. -/
theorem detailReview_cases (u : User) (pid : Nat) (pirmet : Permit)
    (pl : DetailPayload) (db : Store) :
    (detailReview u pid pirmet pl db).2 = db ∨
    (pirmet.status = "review_pending" ∧
      detailReview u pid pirmet pl db = detailReviewApply u pid pirmet pl db) := by
  by_cases hst : pirmet.status = "review_pending"
  · unfold detailReview
    dsimp only
    repeat' split
    all_goals first
      | exact .inl rfl
      | exact .inr ⟨hst, rfl⟩
  · left
    unfold detailReview
    dsimp only
    have hb : (pirmet.status != "review_pending") = true := by simp [hst]
    simp [hb]

/-- `delete` either re-renders an error with the store unchanged or
redirects to the list. -/
theorem clearanceDelete_cases (u : User) (pl : ListPayload) (db : Store) :
    (∃ errs, clearanceDelete u pl db = (.renderList errs, db)) ∨
    (∃ s, clearanceDelete u pl db = (.redirectList, s)) := by
  unfold clearanceDelete
  dsimp only
  repeat' split
  all_goals first
    | exact .inl ⟨_, rfl⟩
    | exact .inr ⟨_, rfl⟩

theorem clearanceCreateApply_fst (clk : Clock) (u : User) (pl : ListPayload)
    (db : Store) (doe : Option Nat) :
    (clearanceCreateApply clk u pl db doe).1 = .redirectList := rfl

theorem clearanceApproveApply_fst (u : User) (pl : ListPayload) (db : Store)
    (pid : Nat) (p : Permit) :
    (clearanceApproveApply u pl db pid p).1 = .redirectList := rfl

theorem clearanceNeedsCompletionApply_fst (u : User) (pl : ListPayload) (db : Store)
    (pid : Nat) (p : Permit) :
    (clearanceNeedsCompletionApply u pl db pid p).1 = .redirectList := rfl

theorem clearanceApprove_none (u : User) (pl : ListPayload) (db : Store)
    (hpid : pl.pirmetId = none) : (clearanceApprove u pl db).2 = db := by
  unfold clearanceApprove
  split
  · rfl
  · simp [hpid, truthyId]

theorem clearanceNeedsCompletion_none (u : User) (pl : ListPayload) (db : Store)
    (hpid : pl.pirmetId = none) : (clearanceNeedsCompletion u pl db).2 = db := by
  unfold clearanceNeedsCompletion
  split
  · rfl
  · simp [hpid, truthyId]

theorem clearanceApprove_store_or_redirect (u : User) (pl : ListPayload) (db : Store) :
    (clearanceApprove u pl db).2 = db ∨ (clearanceApprove u pl db).1 = .redirectList := by
  rcases hpid : pl.pirmetId with _ | pid
  · exact .inl (clearanceApprove_none u pl db hpid)
  · rcases clearanceApprove_dichotomy u pl db pid hpid with ⟨hL, _⟩ | ⟨p, _, _, happ⟩
    · exact .inl hL
    · right
      rw [happ]
      exact clearanceApproveApply_fst u pl db pid p

theorem clearanceNeedsCompletion_store_or_redirect (u : User) (pl : ListPayload)
    (db : Store) :
    (clearanceNeedsCompletion u pl db).2 = db ∨
    (clearanceNeedsCompletion u pl db).1 = .redirectList := by
  rcases hpid : pl.pirmetId with _ | pid
  · exact .inl (clearanceNeedsCompletion_none u pl db hpid)
  · rcases clearanceNeedsCompletion_dichotomy u pl db pid hpid with ⟨hL, _⟩ | ⟨p, _, _, happ⟩
    · exact .inl hL
    · right
      rw [happ]
      exact clearanceNeedsCompletionApply_fst u pl db pid p

/-- Claim C1: transition legality. (1) On the clearance list, when the
targeted permit exists and its (status, action) pair is outside the
allowed table of spec section 4.1, the POST leaves the whole store
unchanged: no status change, no field mutation, no audit entry.
(2) The same holds on the permit detail page. (3) Whenever the clearance
list re-renders with collected errors, the store is unchanged, so a
rejected precondition aborts the action with no partial mutation.
(4) The same all-or-nothing property for the permit detail page. -/
theorem transition_legality :
    (∀ (clk : Clock) (u : User) (pl : ListPayload) (db : Store) (pid : Nat) (p : Permit),
      findById db.permits pid = some p → pl.pirmetId = some pid →
      specAllowedPair p.status pl.action = false →
      (clearanceListPost clk u pl db).2 = db) ∧
    (∀ (u : User) (pid : Nat) (pl : DetailPayload) (db : Store) (p : Permit),
      findById db.permits pid = some p →
      specAllowedPair p.status pl.action = false →
      (pirmetDetailPost u pid pl db).2 = db) ∧
    (∀ (clk : Clock) (u : User) (pl : ListPayload) (db db2 : Store) (errs : List String),
      clearanceListPost clk u pl db = (.renderList errs, db2) → db2 = db) ∧
    (∀ (u : User) (pid : Nat) (pl : DetailPayload) (db db2 : Store) (errs : List String),
      pirmetDetailPost u pid pl db = (.renderDetail errs, db2) → db2 = db) := by
  refine ⟨?_, ?_, ?_, ?_⟩
  · intro clk u pl db pid p hfind hpid hnot
    cases hA : u.isAuthenticated
    · unfold clearanceListPost
      simp [hA]
    · by_cases h1 : pl.action = "update_request_email"
      · unfold clearanceListPost
        simp [hA, h1]
      by_cases h2 : pl.action = "send_inspection_payment_link"
      · unfold clearanceListPost
        simp [hA, h1, h2]
      by_cases h3 : pl.action = "inspection_payment"
      · unfold clearanceListPost
        simp [hA, h1, h2, h3]
      by_cases h4 : pl.action = "send_payment_link"
      · unfold clearanceListPost
        simp [hA, h1, h2, h3, h4]
      by_cases h5 : pl.action = "payment"
      · unfold clearanceListPost
        simp [hA, h1, h2, h3, h4, h5]
      by_cases h6 : pl.action = "issue"
      · unfold clearanceListPost
        simp [hA, h1, h2, h3, h4, h5, h6]
      by_cases h7 : pl.action = "update_permit_details"
      · unfold clearanceListPost
        simp [hA, h1, h2, h3, h4, h5, h6, h7]
      by_cases h8 : pl.action = "create"
      · rw [h8] at hnot
        simp [specAllowedPair] at hnot
      by_cases h9 : pl.action = "approve"
      · have hst : p.status ≠ "review_pending" := by
          rw [h9] at hnot
          simpa [specAllowedPair] using hnot
        have hred : clearanceListPost clk u pl db =
            if !u.isAuthenticated then ((.redirectLogin : ListResult), db)
            else clearanceApprove u pl db := by
          unfold clearanceListPost
          rw [h9]
          rfl
        rw [hred]
        simp only [hA, Bool.not_true, Bool.false_eq_true, if_false]
        rcases clearanceApprove_dichotomy u pl db pid hpid with ⟨hL, _⟩ | ⟨p2, hfp2, hst2, _⟩
        · exact hL
        · rw [hfind] at hfp2
          cases hfp2
          exact absurd hst2 hst
      by_cases h10 : pl.action = "needs_completion"
      · have hst : p.status ≠ "review_pending" := by
          rw [h10] at hnot
          simpa [specAllowedPair] using hnot
        have hred : clearanceListPost clk u pl db =
            if !u.isAuthenticated then ((.redirectLogin : ListResult), db)
            else clearanceNeedsCompletion u pl db := by
          unfold clearanceListPost
          rw [h10]
          rfl
        rw [hred]
        simp only [hA, Bool.not_true, Bool.false_eq_true, if_false]
        rcases clearanceNeedsCompletion_dichotomy u pl db pid hpid with
          ⟨hL, _⟩ | ⟨p2, hfp2, hst2, _⟩
        · exact hL
        · rw [hfind] at hfp2
          cases hfp2
          exact absurd hst2 hst
      by_cases h11 : pl.action = "reject"
      · have hst : p.status ≠ "review_pending" := by
          rw [h11] at hnot
          simpa [specAllowedPair] using hnot
        have hred : clearanceListPost clk u pl db =
            if !u.isAuthenticated then ((.redirectLogin : ListResult), db)
            else clearanceNeedsCompletion u pl db := by
          unfold clearanceListPost
          rw [h11]
          rfl
        rw [hred]
        simp only [hA, Bool.not_true, Bool.false_eq_true, if_false]
        rcases clearanceNeedsCompletion_dichotomy u pl db pid hpid with
          ⟨hL, _⟩ | ⟨p2, hfp2, hst2, _⟩
        · exact hL
        · rw [hfind] at hfp2
          cases hfp2
          exact absurd hst2 hst
      by_cases h12 : pl.action = "delete"
      · rw [h12] at hnot
        simp [specAllowedPair] at hnot
      unfold clearanceListPost
      simp [hA, h1, h2, h3, h4, h5, h6, h7, h8, h9, h10, h11, h12, beq_iff_eq]
  · intro u pid pl db p hfind hnot
    by_cases k1 : pl.action = "complete_missing"
    · have hst : p.status ≠ "needs_completion" := by
        rw [k1] at hnot
        simpa [specAllowedPair] using hnot
      have hred : pirmetDetailPost u pid pl db =
          if !u.isAuthenticated then ((.redirectLogin : DetailResult), db)
          else detailCompleteMissing u pid p pl db := by
        unfold pirmetDetailPost
        rw [hfind, k1]
        rfl
      rw [hred]
      cases hA : u.isAuthenticated
      · simp [hA]
      · simp only [hA, Bool.not_true, Bool.false_eq_true, if_false]
        rcases detailCompleteMissing_cases u pid p pl db with hL | ⟨hst2, _⟩
        · exact hL
        · exact absurd hst2 hst
    by_cases k2 : pl.action = "approve"
    · have hst : p.status ≠ "review_pending" := by
        rw [k2] at hnot
        simpa [specAllowedPair] using hnot
      have hred : pirmetDetailPost u pid pl db =
          if !u.isAuthenticated then ((.redirectLogin : DetailResult), db)
          else detailReview u pid p pl db := by
        unfold pirmetDetailPost
        rw [hfind, k2]
        rfl
      rw [hred]
      cases hA : u.isAuthenticated
      · simp [hA]
      · simp only [hA, Bool.not_true, Bool.false_eq_true, if_false]
        rcases detailReview_cases u pid p pl db with hL | ⟨hst2, _⟩
        · exact hL
        · exact absurd hst2 hst
    by_cases k3 : pl.action = "needs_completion"
    · have hst : p.status ≠ "review_pending" := by
        rw [k3] at hnot
        simpa [specAllowedPair] using hnot
      have hred : pirmetDetailPost u pid pl db =
          if !u.isAuthenticated then ((.redirectLogin : DetailResult), db)
          else detailReview u pid p pl db := by
        unfold pirmetDetailPost
        rw [hfind, k3]
        rfl
      rw [hred]
      cases hA : u.isAuthenticated
      · simp [hA]
      · simp only [hA, Bool.not_true, Bool.false_eq_true, if_false]
        rcases detailReview_cases u pid p pl db with hL | ⟨hst2, _⟩
        · exact hL
        · exact absurd hst2 hst
    by_cases k4 : pl.action = "reject"
    · have hst : p.status ≠ "review_pending" := by
        rw [k4] at hnot
        simpa [specAllowedPair] using hnot
      have hred : pirmetDetailPost u pid pl db =
          if !u.isAuthenticated then ((.redirectLogin : DetailResult), db)
          else detailReview u pid p pl db := by
        unfold pirmetDetailPost
        rw [hfind, k4]
        rfl
      rw [hred]
      cases hA : u.isAuthenticated
      · simp [hA]
      · simp only [hA, Bool.not_true, Bool.false_eq_true, if_false]
        rcases detailReview_cases u pid p pl db with hL | ⟨hst2, _⟩
        · exact hL
        · exact absurd hst2 hst
    unfold pirmetDetailPost
    rw [hfind]
    cases hA : u.isAuthenticated
    · simp [hA]
    · simp [hA, k1, k2, k3, k4, beq_iff_eq]
  · intro clk u pl db db2 errs hEq
    cases hA : u.isAuthenticated
    · unfold clearanceListPost at hEq
      simp [hA] at hEq
    · by_cases h1 : pl.action = "update_request_email"
      · unfold clearanceListPost at hEq
        simp [hA, h1] at hEq
      by_cases h2 : pl.action = "send_inspection_payment_link"
      · unfold clearanceListPost at hEq
        simp [hA, h1, h2] at hEq
      by_cases h3 : pl.action = "inspection_payment"
      · unfold clearanceListPost at hEq
        simp [hA, h1, h2, h3] at hEq
      by_cases h4 : pl.action = "send_payment_link"
      · unfold clearanceListPost at hEq
        simp [hA, h1, h2, h3, h4] at hEq
      by_cases h5 : pl.action = "payment"
      · unfold clearanceListPost at hEq
        simp [hA, h1, h2, h3, h4, h5] at hEq
      by_cases h6 : pl.action = "issue"
      · unfold clearanceListPost at hEq
        simp [hA, h1, h2, h3, h4, h5, h6] at hEq
      by_cases h7 : pl.action = "update_permit_details"
      · unfold clearanceListPost at hEq
        simp [hA, h1, h2, h3, h4, h5, h6, h7] at hEq
      by_cases h8 : pl.action = "create"
      · have hred : clearanceListPost clk u pl db =
            if !u.isAuthenticated then ((.redirectLogin : ListResult), db)
            else clearanceCreate clk u pl db := by
          unfold clearanceListPost
          rw [h8]
          rfl
        rw [hred] at hEq
        simp only [hA, Bool.not_true, Bool.false_eq_true, if_false] at hEq
        rcases clearanceCreate_cases clk u pl db with ⟨errs2, hc⟩ | ⟨doe, hc⟩
        · rw [hc] at hEq
          exact (congrArg Prod.snd hEq).symm
        · rw [hc] at hEq
          have h := congrArg Prod.fst hEq
          rw [clearanceCreateApply_fst] at h
          simp at h
      by_cases h9 : pl.action = "approve"
      · have hred : clearanceListPost clk u pl db =
            if !u.isAuthenticated then ((.redirectLogin : ListResult), db)
            else clearanceApprove u pl db := by
          unfold clearanceListPost
          rw [h9]
          rfl
        rw [hred] at hEq
        simp only [hA, Bool.not_true, Bool.false_eq_true, if_false] at hEq
        rcases clearanceApprove_store_or_redirect u pl db with hL | hR
        · exact ((congrArg Prod.snd hEq).symm.trans hL)
        · have h := congrArg Prod.fst hEq
          rw [hR] at h
          simp at h
      by_cases h10 : pl.action = "needs_completion"
      · have hred : clearanceListPost clk u pl db =
            if !u.isAuthenticated then ((.redirectLogin : ListResult), db)
            else clearanceNeedsCompletion u pl db := by
          unfold clearanceListPost
          rw [h10]
          rfl
        rw [hred] at hEq
        simp only [hA, Bool.not_true, Bool.false_eq_true, if_false] at hEq
        rcases clearanceNeedsCompletion_store_or_redirect u pl db with hL | hR
        · exact ((congrArg Prod.snd hEq).symm.trans hL)
        · have h := congrArg Prod.fst hEq
          rw [hR] at h
          simp at h
      by_cases h11 : pl.action = "reject"
      · have hred : clearanceListPost clk u pl db =
            if !u.isAuthenticated then ((.redirectLogin : ListResult), db)
            else clearanceNeedsCompletion u pl db := by
          unfold clearanceListPost
          rw [h11]
          rfl
        rw [hred] at hEq
        simp only [hA, Bool.not_true, Bool.false_eq_true, if_false] at hEq
        rcases clearanceNeedsCompletion_store_or_redirect u pl db with hL | hR
        · exact ((congrArg Prod.snd hEq).symm.trans hL)
        · have h := congrArg Prod.fst hEq
          rw [hR] at h
          simp at h
      by_cases h12 : pl.action = "delete"
      · have hred : clearanceListPost clk u pl db =
            if !u.isAuthenticated then ((.redirectLogin : ListResult), db)
            else clearanceDelete u pl db := by
          unfold clearanceListPost
          rw [h12]
          rfl
        rw [hred] at hEq
        simp only [hA, Bool.not_true, Bool.false_eq_true, if_false] at hEq
        rcases clearanceDelete_cases u pl db with ⟨errs2, hc⟩ | ⟨s, hc⟩
        · rw [hc] at hEq
          exact (congrArg Prod.snd hEq).symm
        · rw [hc] at hEq
          simp at hEq
      unfold clearanceListPost at hEq
      simp [hA, h1, h2, h3, h4, h5, h6, h7, h8, h9, h10, h11, h12, beq_iff_eq] at hEq
  · intro u pid pl db db2 errs hEq
    rcases hfind : findById db.permits pid with _ | p
    · unfold pirmetDetailPost at hEq
      rw [hfind] at hEq
      simp at hEq
    · by_cases k1 : pl.action = "complete_missing"
      · have hred : pirmetDetailPost u pid pl db =
            if !u.isAuthenticated then ((.redirectLogin : DetailResult), db)
            else detailCompleteMissing u pid p pl db := by
          unfold pirmetDetailPost
          rw [hfind, k1]
          rfl
        rw [hred] at hEq
        cases hA : u.isAuthenticated
        · simp [hA] at hEq
        · simp only [hA, Bool.not_true, Bool.false_eq_true, if_false] at hEq
          rcases detailCompleteMissing_cases u pid p pl db with hL | ⟨-, hc⟩
          · exact ((congrArg Prod.snd hEq).symm.trans hL)
          · rw [hc] at hEq
            have h := congrArg Prod.fst hEq
            rw [detailCompleteMissingApply_fst] at h
            simp at h
      by_cases k2 : pl.action = "approve"
      · have hred : pirmetDetailPost u pid pl db =
            if !u.isAuthenticated then ((.redirectLogin : DetailResult), db)
            else detailReview u pid p pl db := by
          unfold pirmetDetailPost
          rw [hfind, k2]
          rfl
        rw [hred] at hEq
        cases hA : u.isAuthenticated
        · simp [hA] at hEq
        · simp only [hA, Bool.not_true, Bool.false_eq_true, if_false] at hEq
          rcases detailReview_cases u pid p pl db with hL | ⟨-, hc⟩
          · exact ((congrArg Prod.snd hEq).symm.trans hL)
          · rw [hc] at hEq
            have h := congrArg Prod.fst hEq
            rw [detailReviewApply_fst] at h
            simp at h
      by_cases k3 : pl.action = "needs_completion"
      · have hred : pirmetDetailPost u pid pl db =
            if !u.isAuthenticated then ((.redirectLogin : DetailResult), db)
            else detailReview u pid p pl db := by
          unfold pirmetDetailPost
          rw [hfind, k3]
          rfl
        rw [hred] at hEq
        cases hA : u.isAuthenticated
        · simp [hA] at hEq
        · simp only [hA, Bool.not_true, Bool.false_eq_true, if_false] at hEq
          rcases detailReview_cases u pid p pl db with hL | ⟨-, hc⟩
          · exact ((congrArg Prod.snd hEq).symm.trans hL)
          · rw [hc] at hEq
            have h := congrArg Prod.fst hEq
            rw [detailReviewApply_fst] at h
            simp at h
      by_cases k4 : pl.action = "reject"
      · have hred : pirmetDetailPost u pid pl db =
            if !u.isAuthenticated then ((.redirectLogin : DetailResult), db)
            else detailReview u pid p pl db := by
          unfold pirmetDetailPost
          rw [hfind, k4]
          rfl
        rw [hred] at hEq
        cases hA : u.isAuthenticated
        · simp [hA] at hEq
        · simp only [hA, Bool.not_true, Bool.false_eq_true, if_false] at hEq
          rcases detailReview_cases u pid p pl db with hL | ⟨-, hc⟩
          · exact ((congrArg Prod.snd hEq).symm.trans hL)
          · rw [hc] at hEq
            have h := congrArg Prod.fst hEq
            rw [detailReviewApply_fst] at h
            simp at h
      unfold pirmetDetailPost at hEq
      rw [hfind] at hEq
      cases hA : u.isAuthenticated
      · simp [hA] at hEq
      · simp [hA, k1, k2, k3, k4, beq_iff_eq] at hEq
        exact hEq.2.symm

/-- Witness for Claim C1: an admin posts the disallowed action `issue`
against a permit still in `order_received`; the store is unchanged. -/
theorem transition_legality_witness :
    findById dbOR.permits 1 = some permOR ∧
    specAllowedPair permOR.status "issue" = false ∧
    (clearanceListPost clk0 adminUser { action := "issue", pirmetId := some 1 } dbOR).2 =
      dbOR :=
  ⟨by decide, by decide,
    transition_legality.1 clk0 adminUser { action := "issue", pirmetId := some 1 } dbOR 1
      permOR (by decide) (by decide) (by decide)⟩

end Msv
